import Mathlib

/-!
Shallow embedding of the Milvus2 indexer / retriever components of the
`eino-ext` repository, together with proofs about their configuration
validation, sparse-vector conversion, search-option construction and
document conversion logic.

Go `float64` / `float32` values are modelled as rationals; the primitive
numeric conversions `float32(x)` and `float64(x)` are passed in as
function parameters, since their rounding behaviour belongs to the Go
runtime, not to this repository.  Go string-typed enums are modelled as
`String`.  Calls into the external Milvus SDK are modelled as explicit
outcome fields of a backend record.
-/

namespace EinoMilvus2

/-! ## Shared constants (values from the source doc comments and README) -/

def defaultCollection : String := "eino_collection"

def defaultDescription : String := "the collection for eino"

def defaultVectorField : String := "vector"

def defaultSparseVectorField : String := "sparse_vector"

def defaultContentField : String := "content"

def defaultMetadataField : String := "metadata"

def defaultTopK : Int := 5

/-- `MetricType` is a Go string enum. -/
abbrev MetricType := String

def L2 : MetricType := "L2"

def IP : MetricType := "IP"

def COSINE : MetricType := "COSINE"

def BM25 : MetricType := "BM25"

/-- `SparseMethod` is a Go string enum. -/
abbrev SparseMethod := String

def SparseMethodAuto : SparseMethod := "Auto"

def SparseMethodPrecomputed : SparseMethod := "Precomputed"

/-- `entity.FunctionType` constant used by the indexer (BM25). -/
def FunctionTypeBM25 : String := "BM25"

/-! ## Indexer configuration (`components/indexer/milvus2/indexer.go`) -/

/-- Model of `entity.Function` (only the fields the component reads/writes). -/
structure IdxFunction where
  name : String
  ftype : String
  inputFieldNames : List String
  outputFieldNames : List String
deriving Repr, DecidableEq

/-- `entity.NewFunction().WithName("bm25_auto").WithType(entity.FunctionTypeBM25).
    WithInputFields(defaultContentField).WithOutputFields(c.Sparse.VectorField)` -/
def newBM25Function (outField : String) : IdxFunction :=
  { name := "bm25_auto"
    ftype := FunctionTypeBM25
    inputFieldNames := [defaultContentField]
    outputFieldNames := [outField] }

/-- Model of `VectorConfig` (dense vector). -/
structure VectorConfig where
  dimension : Int
  metricType : MetricType
  vectorField : String
deriving Repr, DecidableEq

/-- Model of `SparseVectorConfig`. -/
structure SparseVectorConfig where
  vectorField : String
  metricType : MetricType
  method : SparseMethod
deriving Repr, DecidableEq

/-- Model of `IndexerConfig`.  Pointer-valued fields that the logic only
tests against `nil` are modelled as `Bool` presence flags; the optional
sub-configurations are `Option`s. -/
structure IndexerConfig where
  hasClient : Bool
  hasClientConfig : Bool
  collection : String
  description : String
  vector : Option VectorConfig
  sparse : Option SparseVectorConfig
  functions : List IdxFunction
  hasDocumentConverter : Bool
deriving Repr, DecidableEq

/-- The dense-vector default block of `IndexerConfig.validate`. -/
def resolveVector (v : VectorConfig) : VectorConfig :=
  let v := if v.metricType = "" then { v with metricType := L2 } else v
  if v.vectorField = "" then { v with vectorField := defaultVectorField } else v

/-- The sparse-vector default block of `IndexerConfig.validate`:
field name, metric type and generation method defaulting. -/
def resolveSparse (s : SparseVectorConfig) : SparseVectorConfig :=
  let s := if s.vectorField = "" then { s with vectorField := defaultSparseVectorField } else s
  let s := if s.metricType = "" then { s with metricType := BM25 } else s
  if s.method = "" then
    if s.metricType = BM25 then { s with method := SparseMethodAuto }
    else { s with method := SparseMethodPrecomputed }
  else s

/-- `IndexerConfig.addDefaultBM25Function`. -/
def IndexerConfig.addDefaultBM25Function (c : IndexerConfig) : IndexerConfig :=
  match c.sparse with
  | some s =>
    if s.method = SparseMethodAuto then
      let hasSparseFunc :=
        c.functions.any (fun fn => fn.outputFieldNames.any (fun output => output = s.vectorField))
      if hasSparseFunc then c
      else { c with functions := c.functions ++ [newBM25Function s.vectorField] }
    else c
  | none => c

/-- `validate`, collection default. -/
def stepCollection (c : IndexerConfig) : IndexerConfig :=
  if c.collection = "" then { c with collection := defaultCollection } else c

/-- `validate`, description default. -/
def stepDescription (c : IndexerConfig) : IndexerConfig :=
  if c.description = "" then { c with description := defaultDescription } else c

/-- `validate`, dense-vector defaults block. -/
def stepVector (c : IndexerConfig) : IndexerConfig :=
  match c.vector with
  | some v => { c with vector := some (resolveVector v) }
  | none => c

/-- `validate`, sparse-vector defaults block followed by
`addDefaultBM25Function` (both run inside `if c.Sparse != nil`). -/
def stepSparse (c : IndexerConfig) : IndexerConfig :=
  match c.sparse with
  | some s => ({ c with sparse := some (resolveSparse s) }).addDefaultBM25Function
  | none => c

/-- `validate`, default document converter. -/
def stepConverter (c : IndexerConfig) : IndexerConfig :=
  if c.hasDocumentConverter then c else { c with hasDocumentConverter := true }

/-- The defaults-filling tail of `IndexerConfig.validate` (everything after
the two error guards), as the sequence of in-place mutations of the Go code. -/
def IndexerConfig.applyDefaults (c : IndexerConfig) : IndexerConfig :=
  stepConverter (stepSparse (stepVector (stepDescription (stepCollection c))))

/-- `IndexerConfig.validate`: checks the configuration and sets default
values, returning the updated configuration (the Go code mutates `c` in
place). -/
def IndexerConfig.validate (c : IndexerConfig) : Except String IndexerConfig :=
  if !c.hasClient && !c.hasClientConfig then
    .error "[NewIndexer] milvus client or client config not provided"
  else if c.vector.isNone && c.sparse.isNone then
    .error "[NewIndexer] at least one vector field (dense or sparse) is required"
  else
    .ok c.applyDefaults

/-! ## Sparse-vector conversion (`toMilvusSparseEmbedding`) -/

/-- Model of `entity.SparseEmbedding` built by `entity.NewSliceSparseEmbedding`:
parallel `uint32` position and `float32` value slices. -/
structure SparseEmbedding where
  positions : List Nat
  values : List ℚ
deriving Repr, DecidableEq

/-- The fill loop of `toMilvusSparseEmbedding`: walks the sorted index list,
errors on the first negative index, converts each index with `uint32(idx)`
(truncation modulo `2^32`) and each value with `float32(sv[idx])`. -/
def sparseFill (f32 : ℚ → ℚ) (sv : List (Int × ℚ)) :
    List Int → Except String (List Nat × List ℚ)
  | [] => .ok ([], [])
  | idx :: rest =>
    if idx < 0 then .error ("negative sparse index: " ++ toString idx)
    else
      match sparseFill f32 sv rest with
      | .error e => .error e
      | .ok (ps, vs) =>
        .ok ((idx % (2 : Int) ^ 32).toNat :: ps, f32 ((sv.lookup idx).getD 0) :: vs)

/-- `toMilvusSparseEmbedding`: the Go `map[int]float64` argument is modelled
as an association list with distinct keys; map indexing is `lookup`. -/
def toMilvusSparseEmbedding (f32 : ℚ → ℚ) (sv : List (Int × ℚ)) :
    Except String SparseEmbedding :=
  if sv.length = 0 then .ok ⟨[], []⟩
  else
    let indices := List.insertionSort (· ≤ ·) (sv.map Prod.fst)
    match sparseFill f32 sv indices with
    | .error e => .error e
    | .ok (ps, vs) => .ok ⟨ps, vs⟩

/-! ## Indexer construction flow (`NewIndexer` / `initClient` / `initCollection`)

Every call into the Milvus SDK is an external request/response; its outcome
is a field of `IndexerBackend`, and the component functions are translated
over those outcomes. -/

/-- `entity.LoadState` as the component reads it: loaded or not. -/
inductive LoadState where
  | loaded
  | notLoaded
deriving Repr, DecidableEq

/-- Which client the component ends up using. -/
inductive ClientSource where
  | provided
  | created
deriving Repr, DecidableEq

/-- Outcomes of the external Milvus SDK calls made during `NewIndexer`. -/
structure IndexerBackend where
  newClientResp : Except String Unit
  hasCollectionResp : Except String Bool
  createCollectionResp : Except String Unit
  getLoadStateResp : Except String LoadState
  describeVectorIndexOk : Bool
  createVectorIndexResp : Except String Unit
  awaitVectorIndexResp : Except String Unit
  describeSparseIndexOk : Bool
  createSparseIndexResp : Except String Unit
  awaitSparseIndexResp : Except String Unit
  loadCollectionResp : Except String Unit
  awaitLoadResp : Except String Unit
deriving Repr

/-- `initClient` (indexer). -/
def indexerInitClient (c : IndexerConfig) (b : IndexerBackend) :
    Except String ClientSource :=
  if c.hasClient then .ok .provided
  else if !c.hasClientConfig then
    .error "[NewIndexer] either Client or ClientConfig must be provided"
  else
    match b.newClientResp with
    | .error e => .error ("[NewIndexer] failed to create milvus client: " ++ e)
    | .ok _ => .ok .created

/-- `createCollection`: `buildSchema` can only fail through its safety check
(no vector field at all); otherwise the `CreateCollection` call decides. -/
def idxCreateCollection (c : IndexerConfig) (b : IndexerBackend) : Except String Unit :=
  if c.vector.isNone && c.sparse.isNone then
    .error "[NewIndexer] at least one vector field (dense or sparse) is required"
  else
    match b.createCollectionResp with
    | .error e => .error ("[NewIndexer] failed to create collection: " ++ e)
    | .ok _ => .ok ()

/-- `createVectorIndex`: skipped when `DescribeIndex` succeeds. -/
def idxCreateVectorIndex (b : IndexerBackend) : Except String Unit :=
  if b.describeVectorIndexOk then .ok ()
  else
    match b.createVectorIndexResp with
    | .error e => .error ("[NewIndexer] failed to create index: " ++ e)
    | .ok _ =>
      match b.awaitVectorIndexResp with
      | .error e => .error ("[NewIndexer] failed to await index creation: " ++ e)
      | .ok _ => .ok ()

/-- `createSparseIndex`: skipped when `DescribeIndex` succeeds. -/
def idxCreateSparseIndex (b : IndexerBackend) : Except String Unit :=
  if b.describeSparseIndexOk then .ok ()
  else
    match b.createSparseIndexResp with
    | .error e => .error ("[NewIndexer] failed to create sparse index: " ++ e)
    | .ok _ =>
      match b.awaitSparseIndexResp with
      | .error e => .error ("[NewIndexer] failed to await sparse index creation: " ++ e)
      | .ok _ => .ok ()

/-- `createIndex`: dense then sparse, each only when configured. -/
def idxCreateIndex (c : IndexerConfig) (b : IndexerBackend) : Except String Unit :=
  match (if c.vector.isSome then idxCreateVectorIndex b else .ok ()) with
  | .error e => .error e
  | .ok _ => if c.sparse.isSome then idxCreateSparseIndex b else .ok ()

/-- The `if !hasCollection` block of `initCollection`: dimension check, then
collection creation. -/
def ensureCollectionStep (c : IndexerConfig) (b : IndexerBackend) (hasColl : Bool) :
    Except String Unit :=
  if !hasColl then
    match c.vector with
    | some v =>
      if v.dimension ≤ 0 then
        .error "[NewIndexer] vector dimension is required when collection does not exist"
      else idxCreateCollection c b
    | none => idxCreateCollection c b
  else .ok ()

/-- The load-state block of `initCollection`: when not loaded, create the
indexes, then load the collection and await the load. -/
def loadStep (c : IndexerConfig) (b : IndexerBackend) : Except String Unit :=
  match b.getLoadStateResp with
  | .error e => .error ("[NewIndexer] failed to get load state: " ++ e)
  | .ok st =>
    if st ≠ .loaded then
      match idxCreateIndex c b with
      | .error e => .error e
      | .ok _ =>
        match b.loadCollectionResp with
        | .error e => .error ("[NewIndexer] failed to load collection: " ++ e)
        | .ok _ =>
          match b.awaitLoadResp with
          | .error e => .error ("[NewIndexer] failed to await collection load: " ++ e)
          | .ok _ => .ok ()
    else .ok ()

/-- `initCollection`: ensures the collection exists (creating it when
missing, after the dimension check) and is loaded. -/
def initCollection (c : IndexerConfig) (b : IndexerBackend) : Except String Unit :=
  match b.hasCollectionResp with
  | .error e => .error ("[NewIndexer] failed to check collection: " ++ e)
  | .ok hasColl =>
    match ensureCollectionStep c b hasColl with
    | .error e => .error e
    | .ok _ => loadStep c b

/-- `NewIndexer`: validate, init client, init collection. -/
def NewIndexer (c : IndexerConfig) (b : IndexerBackend) :
    Except String (ClientSource × IndexerConfig) :=
  match c.validate with
  | .error e => .error e
  | .ok c' =>
    match indexerInitClient c' b with
    | .error e => .error e
    | .ok cli =>
      match initCollection c' b with
      | .error e => .error e
      | .ok _ => .ok (cli, c')

/-! ## Retriever configuration and construction
(`components/retriever/milvus2/retriever.go`) -/

/-- Model of `RetrieverConfig` (presence flags for pointer/function/interface
fields, plus the value fields the logic reads). -/
structure RetrieverConfig where
  hasClient : Bool
  hasClientConfig : Bool
  collection : String
  partitions : List String
  vectorField : String
  sparseVectorField : String
  outputFields : List String
  topK : Int
  hasSearchMode : Bool
  hasDocumentConverter : Bool
deriving Repr, DecidableEq

/-- `RetrieverConfig.validate`: checks the configuration and sets default
values, returning the updated configuration. -/
def RetrieverConfig.validate (c : RetrieverConfig) : Except String RetrieverConfig :=
  if !c.hasClient && !c.hasClientConfig then
    .error "[NewRetriever] milvus client or client config not provided"
  else if !c.hasSearchMode then
    .error "[NewRetriever] search mode not provided"
  else
    let c := if c.collection = "" then { c with collection := defaultCollection } else c
    let c := if c.vectorField = "" then { c with vectorField := defaultVectorField } else c
    let c :=
      if c.sparseVectorField = "" then
        { c with sparseVectorField := defaultSparseVectorField }
      else c
    let c := if c.outputFields.length = 0 then { c with outputFields := ["*"] } else c
    let c := if c.topK ≤ 0 then { c with topK := defaultTopK } else c
    let c := if c.hasDocumentConverter then c else { c with hasDocumentConverter := true }
    .ok c

/-- Outcomes of the external Milvus SDK calls made during `NewRetriever`. -/
structure RetrieverBackend where
  newClientResp : Except String Unit
  hasCollectionResp : Except String Bool
  getLoadStateResp : Except String LoadState
  loadCollectionResp : Except String Unit
  awaitLoadResp : Except String Unit
deriving Repr

/-- `initClient` (retriever). -/
def retrieverInitClient (c : RetrieverConfig) (b : RetrieverBackend) :
    Except String ClientSource :=
  if c.hasClient then .ok .provided
  else if !c.hasClientConfig then
    .error "[NewRetriever] either Client or ClientConfig must be provided"
  else
    match b.newClientResp with
    | .error e => .error ("[NewRetriever] failed to create milvus client: " ++ e)
    | .ok _ => .ok .created

/-- `loadCollection` (retriever): errors when the collection does not exist,
otherwise ensures the loaded state. -/
def retrieverLoadCollection (c : RetrieverConfig) (b : RetrieverBackend) :
    Except String Unit :=
  match b.hasCollectionResp with
  | .error e => .error ("[NewRetriever] failed to check collection: " ++ e)
  | .ok hasColl =>
    if !hasColl then
      .error ("[NewRetriever] collection " ++ c.collection ++ " not found")
    else
      match b.getLoadStateResp with
      | .error e => .error ("[NewRetriever] failed to get load state: " ++ e)
      | .ok st =>
        if st ≠ .loaded then
          match b.loadCollectionResp with
          | .error e => .error ("[NewRetriever] failed to load collection: " ++ e)
          | .ok _ =>
            match b.awaitLoadResp with
            | .error e => .error ("[NewRetriever] failed to await collection load: " ++ e)
            | .ok _ => .ok ()
        else .ok ()

/-- `NewRetriever`: validate, init client, load collection. -/
def NewRetriever (c : RetrieverConfig) (b : RetrieverBackend) :
    Except String (ClientSource × RetrieverConfig) :=
  match c.validate with
  | .error e => .error e
  | .ok c' =>
    match retrieverInitClient c' b with
    | .error e => .error e
    | .ok cli =>
      match retrieverLoadCollection c' b with
      | .error e => .error e
      | .ok _ => .ok (cli, c')

/-! ## Query embedding (`search_mode/utils.go` `EmbedQuery`)

The embedder is modelled as the outcome of its `EmbedStrings` call on the
one-element query batch: absent (`nil`), failing, or a list of `float64`
vectors. -/

/-- `EmbedQuery`: nil check, embedder call, result-arity check, and the
elementwise `float64 → float32` conversion of the single vector. -/
def EmbedQuery (f32 : ℚ → ℚ) (emb : Option (Except String (List (List ℚ)))) :
    Except String (List ℚ) :=
  match emb with
  | none => .error "[Retriever] embedding not provided"
  | some r =>
    match r with
    | .error e => .error ("[Retriever] failed to embed query: " ++ e)
    | .ok vectors =>
      if vectors.length ≠ 1 then
        .error ("[Retriever] invalid embedding result: expected 1, got " ++
          toString vectors.length)
      else .ok ((vectors.headI).map f32)

/-! ## Retriever result conversion (`defaultDocumentConverter` in
`retriever.go`)

A Milvus field value (`any` in Go) is modelled by `GoVal`; JSON bytes are
modelled as the decoded key/value map together with a flag saying whether
`sonic.Unmarshal` succeeds on them. -/

/-- Model of a dynamically-typed Milvus field value. -/
inductive GoVal where
  | gstr (s : String)
  | gbytes (ok : Bool) (m : List (String × GoVal))
  | gint (n : Int)
deriving Repr

/-- Model of a result column: name plus the per-row `Get(i)` outcomes
(`none` models a `Get` error, which the converter skips). -/
structure ResultField where
  name : String
  values : List (Option GoVal)
deriving Repr

/-- Model of `milvusclient.ResultSet` as read by the converters. -/
structure ResultSet where
  resultCount : Int
  scores : List ℚ
  fields : List ResultField
deriving Repr

/-- Retrieved document (`schema.Document` as populated by the converter).
The Go metadata map `map[string]any` is modelled extensionally as a
function from keys to optional values. -/
structure Document where
  id : String
  content : String
  score : Option ℚ
  metaData : String → Option GoVal

/-- Go map assignment `m[k] = v`. -/
def mapSet (m : String → Option GoVal) (k : String) (v : GoVal) :
    String → Option GoVal :=
  fun x => if x = k then some v else m x

/-- One step of the field loop of the retriever's default converter:
the `switch field.Name()` dispatch for row `i`.  `gas` models the SDK's
`GetAsString` fallback for non-string id/content values. -/
def applyField (gas : GoVal → Option String) (i : Nat) (doc : Document)
    (field : ResultField) : Document :=
  match field.values.getD i none with
  | none => doc
  | some val =>
    if field.name = "id" then
      match val with
      | .gstr s => { doc with id := s }
      | _ =>
        match gas val with
        | some s => { doc with id := s }
        | none => doc
    else if field.name = defaultContentField then
      match val with
      | .gstr s => { doc with content := s }
      | _ =>
        match gas val with
        | some s => { doc with content := s }
        | none => doc
    else if field.name = defaultMetadataField then
      match val with
      | .gbytes ok m =>
        if ok then
          { doc with metaData := m.foldl (fun acc p => mapSet acc p.1 p.2) doc.metaData }
        else doc
      | _ => doc
    else { doc with metaData := mapSet doc.metaData field.name val }

/-- Conversion of result row `i`: fresh document, score when available
(`float64(result.Scores[i])` via `f64`), then the field loop. -/
def convertRow (f64 : ℚ → ℚ) (gas : GoVal → Option String) (rs : ResultSet)
    (i : Nat) : Document :=
  let doc : Document :=
    { id := "", content := "", metaData := fun _ => none
      score := if i < rs.scores.length then some (f64 (rs.scores.getD i 0)) else none }
  rs.fields.foldl (applyField gas i) doc

/-- The retriever's `defaultDocumentConverter`: one document per result row,
in row order; it never fails. -/
def retrieverDocumentConverter (f64 : ℚ → ℚ) (gas : GoVal → Option String)
    (rs : ResultSet) : Except String (List Document) :=
  .ok ((List.range rs.resultCount.toNat).map (convertRow f64 gas rs))

/-! ## Retrieval options

`retriever.GetCommonOptions` is seeded with `TopK: &conf.TopK` by every
search mode, so the common `TopK` pointer is never nil: it holds the
per-call value when a `WithTopK` option was supplied and `conf.TopK`
otherwise. -/

/-- The grouping impl-specific option. -/
structure Grouping where
  groupByField : String
  groupSize : Int
  strictGroupSize : Bool
deriving Repr, DecidableEq

/-- Impl-specific retrieval options (`milvus2.ImplOptions`). -/
structure ImplOpts where
  filter : String
  grouping : Option Grouping
deriving Repr, DecidableEq

/-- No per-call options: the zero `ImplOptions`. -/
def noImplOpts : ImplOpts := { filter := "", grouping := none }

/-- `retriever.GetCommonOptions(&retriever.Options{TopK: &conf.TopK}, opts...).TopK`:
the per-call `WithTopK` value when supplied, else the seed `&conf.TopK`. -/
def getCommonTopK (confTopK : Int) (callTopK : Option Int) : Option Int :=
  match callTopK with
  | some k => some k
  | none => some confTopK

/-! ## Scalar search mode (`search_mode/scalar.go`) -/

/-- Model of the `milvusclient.QueryOption` the scalar mode builds. -/
structure QueryOptionModel where
  collection : String
  filterExpr : String
  outputFields : List String
  limit : Int
  partitions : List String
deriving Repr, DecidableEq

/-- `Scalar.BuildQueryOption`. -/
def scalarBuildQueryOption (conf : RetrieverConfig) (query : String)
    (callTopK : Option Int) (io : ImplOpts) : Except String QueryOptionModel :=
  let finalTopK :=
    match getCommonTopK conf.topK callTopK with
    | some k => k
    | none => conf.topK
  let expr :=
    if io.filter ≠ "" then
      if query ≠ "" then "(" ++ query ++ ") and (" ++ io.filter ++ ")"
      else io.filter
    else query
  .ok
    { collection := conf.collection
      filterExpr := expr
      outputFields := conf.outputFields
      limit := finalTopK
      partitions := conf.partitions }

/-! ## Iterator search mode (`search_mode/iterator.go`) -/

/-- The `Iterator` search-mode object. -/
structure IteratorMode where
  metricType : MetricType
  batchSize : Int
  searchParams : List (String × String)
deriving Repr, DecidableEq

/-- Model of the `milvusclient.SearchIteratorOption` the iterator mode builds. -/
structure SearchIteratorOptionModel where
  collection : String
  queryVector : List ℚ
  annsField : String
  batchSize : Int
  outputFields : List String
  iteratorLimit : Int
  searchParams : List (String × String)
  partitions : List String
  filter : String
  grouping : Option Grouping
deriving Repr, DecidableEq

/-- `Iterator.BuildSearchOption`: unconditionally an error. -/
def iteratorBuildSearchOption (_m : IteratorMode) (_conf : RetrieverConfig)
    (_queryVector : List ℚ) : Except String QueryOptionModel :=
  .error "Iterator search mode requires BuildSearchIteratorOption"

/-- `Iterator.BuildSearchIteratorOption`. -/
def iteratorBuildSearchIteratorOption (m : IteratorMode) (conf : RetrieverConfig)
    (queryVector : List ℚ) (callTopK : Option Int) (io : ImplOpts) :
    Except String SearchIteratorOptionModel :=
  let finalLimit :=
    match getCommonTopK conf.topK callTopK with
    | some k => k
    | none => conf.topK
  .ok
    { collection := conf.collection
      queryVector := queryVector
      annsField := conf.vectorField
      batchSize := m.batchSize
      outputFields := conf.outputFields
      iteratorLimit := finalLimit
      searchParams :=
        (if m.metricType ≠ "" then [("metric_type", m.metricType)] else []) ++
          m.searchParams
      partitions := conf.partitions
      filter := io.filter
      grouping := io.grouping }

/-- Outcome of one `iterator.Next(ctx)` call. -/
inductive NextOutcome where
  | eofErr
  | failure (e : String)
  | batch (rs : ResultSet)
deriving Repr

/-- The fetch loop of `Iterator.Retrieve`: stops on `io.EOF` or an empty
batch, fails on any other `Next` error or a conversion error, and
concatenates the converted batches in order. -/
def iteratorLoop (conv : ResultSet → Except String (List Document)) :
    List NextOutcome → Except String (List Document)
  | [] => .ok []
  | .eofErr :: _ => .ok []
  | .failure e :: _ => .error ("iterator next failed: " ++ e)
  | .batch rs :: rest =>
    if rs.resultCount = 0 then .ok []
    else
      match conv rs with
      | .error e => .error ("failed to convert batch results: " ++ e)
      | .ok docs =>
        match iteratorLoop conv rest with
        | .error e => .error e
        | .ok more => .ok (docs ++ more)

/-- `Iterator.Retrieve`: embedding check, query embedding, option building,
iterator creation (`searchIterResp` is the SDK call outcome, carrying the
cursor's batch sequence), then the fetch loop. -/
def iteratorRetrieve (f32 : ℚ → ℚ) (m : IteratorMode)
    (conf : RetrieverConfig) (emb : Option (Except String (List (List ℚ))))
    (conv : ResultSet → Except String (List Document))
    (searchIterResp : Except String (List NextOutcome))
    (callTopK : Option Int) (io : ImplOpts) : Except String (List Document) :=
  match emb with
  | none => .error "embedding is required for iterator search"
  | some _ =>
    match EmbedQuery f32 emb with
    | .error e => .error e
    | .ok qv =>
      match iteratorBuildSearchIteratorOption m conf qv callTopK io with
      | .error e => .error ("failed to build search iterator option: " ++ e)
      | .ok _ =>
        match searchIterResp with
        | .error e => .error ("failed to create search iterator: " ++ e)
        | .ok cursor => iteratorLoop conv cursor

/-! ## Range search mode (`search_mode/range.go`) -/

/-- The `Range` search-mode object. -/
structure RangeMode where
  metricType : MetricType
  radius : ℚ
  rangeFilter : Option ℚ
deriving Repr, DecidableEq

/-- Model of the `milvusclient.SearchOption` the range mode builds. -/
structure SearchOptionModel where
  collection : String
  topK : Int
  queryVectors : List (List ℚ)
  annsField : String
  outputFields : List String
  searchParams : List (String × String)
  partitions : List String
  filter : String
  grouping : Option Grouping
deriving Repr, DecidableEq

/-- `Range.BuildSearchOption` (`fmtFloat` models `fmt.Sprintf("%v", _)`). -/
def rangeBuildSearchOption (fmtFloat : ℚ → String) (r : RangeMode)
    (conf : RetrieverConfig) (queryVector : List ℚ) (callTopK : Option Int)
    (io : ImplOpts) : Except String SearchOptionModel :=
  let topK :=
    match getCommonTopK conf.topK callTopK with
    | some k => k
    | none => conf.topK
  .ok
    { collection := conf.collection
      topK := topK
      queryVectors := [queryVector]
      annsField := conf.vectorField
      outputFields := conf.outputFields
      searchParams :=
        [("radius", fmtFloat r.radius)] ++
          (if r.metricType ≠ "" then [("metric_type", r.metricType)] else []) ++
          (match r.rangeFilter with
           | some f => [("range_filter", fmtFloat f)]
           | none => [])
      partitions := conf.partitions
      filter := io.filter
      grouping := io.grouping }

/-! ## Hybrid search mode (`search_mode/hybrid.go`) -/

/-- `milvus2.VectorType` (`DenseVector` is the zero value / default). -/
inductive VectorType where
  | dense
  | sparse
deriving Repr, DecidableEq

/-- A single ANN sub-search inside a hybrid search. -/
structure SubRequest where
  vectorField : String
  metricType : MetricType
  topK : Int
  searchParams : List (String × String)
  vectorType : VectorType
deriving Repr, DecidableEq

/-- The `Hybrid` search-mode object (the reranker is opaque to the logic). -/
structure HybridMode where
  subRequests : List SubRequest
  topK : Int
deriving Repr, DecidableEq

/-- The query payload of an ANN request: raw text for sparse/BM25 requests,
a float vector for dense ones. -/
inductive AnnQueryData where
  | text (q : String)
  | floatVec (v : List ℚ)
deriving Repr, DecidableEq

/-- Model of `milvusclient.AnnRequest`. -/
structure AnnRequestModel where
  field : String
  limit : Int
  queryData : AnnQueryData
  searchParams : List (String × String)
  filter : String
  grouping : Option Grouping
deriving Repr, DecidableEq

/-- Model of `milvusclient.HybridSearchOption`. -/
structure HybridSearchOptionModel where
  collection : String
  limit : Int
  requests : List AnnRequestModel
  outputFields : List String
  partitions : List String
deriving Repr, DecidableEq

/-- The per-sub-request body of the loop in `Hybrid.BuildHybridSearchOption`:
field resolution, limit resolution, query payload (erroring for a dense
request with an empty query vector), search params, filter and grouping. -/
def buildAnnRequest (conf : RetrieverConfig) (io : ImplOpts)
    (queryVector : List ℚ) (query : String) (req : SubRequest) :
    Except String AnnRequestModel :=
  let field :=
    if req.vectorField = "" then
      if req.vectorType = .sparse then conf.sparseVectorField else conf.vectorField
    else req.vectorField
  let limit := if req.topK ≤ 0 then conf.topK else req.topK
  let qd : Except String AnnQueryData :=
    match req.vectorType with
    | .sparse => .ok (.text query)
    | .dense =>
      if queryVector.length = 0 then
        .error "dense vector SubRequest requires embedding, but query vector is empty"
      else .ok (.floatVec queryVector)
  match qd with
  | .error e => .error e
  | .ok q' =>
    .ok
      { field := field
        limit := limit
        queryData := q'
        searchParams :=
          req.searchParams ++
            (if req.metricType ≠ "" then [("metric_type", req.metricType)] else [])
        filter := io.filter
        grouping := io.grouping }

/-- `Hybrid.BuildSearchOption`: unconditionally an error. -/
def hybridBuildSearchOption (_h : HybridMode) (_conf : RetrieverConfig)
    (_queryVector : List ℚ) : Except String SearchOptionModel :=
  .error "Hybrid search mode requires BuildHybridSearchOption"

/-- `Hybrid.BuildHybridSearchOption`. -/
def hybridBuildHybridSearchOption (h : HybridMode) (conf : RetrieverConfig)
    (queryVector : List ℚ) (query : String) (callTopK : Option Int)
    (io : ImplOpts) : Except String HybridSearchOptionModel :=
  if h.subRequests.length < 2 then
    .error "hybrid search requires at least 2 SubRequests; use Approximate or Sparse search mode for single-vector search"
  else
    let finalTopK :=
      let f := conf.topK
      let f := if h.topK > 0 then h.topK else f
      match getCommonTopK conf.topK callTopK with
      | some k => k
      | none => f
    match h.subRequests.mapM (buildAnnRequest conf io queryVector query) with
    | .error e => .error e
    | .ok reqs =>
      .ok
        { collection := conf.collection
          limit := finalTopK
          requests := reqs
          outputFields := conf.outputFields
          partitions := conf.partitions }

/-! ## Indexer default document converter
(`defaultDocumentConverter` in `indexer.go`) -/

def defaultIDField : String := "id"

/-- A document as the indexer consumes it (`schema.Document`): identifier,
content, the vectors its accessors return, and the metadata map
(`sonic.Marshal` of the map is modelled by the `marshal` parameter). -/
structure IdxDocument where
  id : String
  content : String
  denseVector : List ℚ
  sparseVector : List (Int × ℚ)
  metaData : List (String × GoVal)
deriving Repr

/-- Model of a `column.Column` built by the converter. -/
inductive ColumnModel where
  | varcharCol (name : String) (vals : List String)
  | jsonBytesCol (name : String) (vals : List (List (String × GoVal)))
  | floatVectorCol (name : String) (dim : Nat) (vecs : List (List ℚ))
  | sparseVectorsCol (name : String) (vecs : List SparseEmbedding)
deriving Repr

/-- The per-document loop of the indexer's default converter, accumulating
the id/content/dense/metadata/sparse column slices.  `docsLen` is the
length of the full document list (the `len(vectors) == len(docs)` test), and
`idx` the running index. -/
def idxConvLoop (f32 : ℚ → ℚ)
    (marshal : List (String × GoVal) → Except String (List (String × GoVal)))
    (denseField sparseField : String) (vectors : List (List ℚ)) (docsLen : Nat) :
    Nat → List IdxDocument →
    Except String
      (List String × List String × List (List ℚ) ×
        List (List (String × GoVal)) × List SparseEmbedding)
  | _, [] => .ok ([], [], [], [], [])
  | idx, doc :: rest =>
    let sourceVec :=
      if vectors.length = docsLen then vectors.getD idx [] else doc.denseVector
    let denseStep : Except String (List (List ℚ) → List (List ℚ)) :=
      if denseField ≠ "" then
        if sourceVec.length = 0 then
          .error ("vector data missing for document " ++ toString idx ++
            " (id: " ++ doc.id ++ ")")
        else .ok (fun vs => sourceVec.map f32 :: vs)
      else .ok (fun vs => vs)
    match denseStep with
    | .error e => .error e
    | .ok addDense =>
      let sparseStep : Except String (List SparseEmbedding → List SparseEmbedding) :=
        if sparseField ≠ "" then
          match toMilvusSparseEmbedding f32 doc.sparseVector with
          | .error e =>
            .error ("failed to convert sparse vector for document " ++
              toString idx ++ ": " ++ e)
          | .ok se => .ok (fun ss => se :: ss)
        else .ok (fun ss => ss)
      match sparseStep with
      | .error e => .error e
      | .ok addSparse =>
        match marshal doc.metaData with
        | .error e => .error ("failed to marshal metadata: " ++ e)
        | .ok metadata =>
          match idxConvLoop f32 marshal denseField sparseField vectors docsLen
              (idx + 1) rest with
          | .error e => .error e
          | .ok (ids, contents, vecs, metadatas, sparseVecs) =>
            .ok (doc.id :: ids, doc.content :: contents, addDense vecs,
              metadata :: metadatas, addSparse sparseVecs)

/-- `defaultDocumentConverter(vector, sparse)` applied to a document batch
and the embedding vectors. -/
def indexerDocumentConverter (f32 : ℚ → ℚ)
    (marshal : List (String × GoVal) → Except String (List (String × GoVal)))
    (vector : Option VectorConfig) (sparse : Option SparseVectorConfig)
    (docs : List IdxDocument) (vectors : List (List ℚ)) :
    Except String (List ColumnModel) :=
  let sparseField :=
    match sparse with
    | some s => if s.method = SparseMethodPrecomputed then s.vectorField else ""
    | none => ""
  let denseField :=
    match vector with
    | some v => v.vectorField
    | none => ""
  match idxConvLoop f32 marshal denseField sparseField vectors docs.length 0 docs with
  | .error e => .error e
  | .ok (ids, contents, vecs, metadatas, sparseVecs) =>
    let columns : List ColumnModel :=
      [.varcharCol defaultIDField ids,
       .varcharCol defaultContentField contents,
       .jsonBytesCol defaultMetadataField metadatas]
    let columns :=
      if denseField ≠ "" then
        columns ++
          [.floatVectorCol denseField
            (match vecs with | [] => 0 | v :: _ => v.length) vecs]
      else columns
    if sparseField ≠ "" then
      .ok (columns ++ [.sparseVectorsCol sparseField sparseVecs])
    else .ok columns

/-! ## Sample fixtures (concrete configurations and backend outcomes used
to instantiate the theorems) -/

def sampleIndexerBackendOk : IndexerBackend :=
  ⟨.ok (), .ok true, .ok (), .ok .loaded, true, .ok (), .ok (), true, .ok (), .ok (),
    .ok (), .ok ()⟩

def sampleIndexerBackendMissing : IndexerBackend :=
  ⟨.ok (), .ok false, .ok (), .ok .loaded, true, .ok (), .ok (), true, .ok (), .ok (),
    .ok (), .ok ()⟩

def sampleRetrieverBackendOk : RetrieverBackend :=
  ⟨.ok (), .ok true, .ok .loaded, .ok (), .ok ()⟩

def sampleRetrieverBackendMissing : RetrieverBackend :=
  ⟨.ok (), .ok false, .ok .loaded, .ok (), .ok ()⟩

def sampleIndexerConfig : IndexerConfig :=
  ⟨true, false, "", "", some ⟨4, "", ""⟩, none, [], false⟩

def sampleIndexerConfigBadDim : IndexerConfig :=
  ⟨true, false, "", "", some ⟨0, "", ""⟩, none, [], false⟩

def sampleIndexerConfigNoClient : IndexerConfig :=
  ⟨false, false, "", "", some ⟨4, "", ""⟩, none, [], false⟩

def sampleIndexerConfigCreate : IndexerConfig :=
  ⟨false, true, "", "", some ⟨4, "", ""⟩, none, [], false⟩

def sampleRetrieverConfig : RetrieverConfig :=
  ⟨true, false, "", [], "", "", [], 0, true, false⟩

def sampleRetrieverConfigNoClient : RetrieverConfig :=
  ⟨false, false, "", [], "", "", [], 0, true, false⟩

def sampleRetrieverConfigCreate : RetrieverConfig :=
  ⟨false, true, "", [], "", "", [], 0, true, false⟩

def sampleResultSet : ResultSet :=
  ⟨2, [9 / 10, 8 / 10],
    [⟨"id", [some (.gstr "a"), some (.gstr "b")]⟩,
     ⟨"content", [some (.gstr "ca"), some (.gstr "cb")]⟩,
     ⟨"metadata", [some (.gbytes true [("k1", .gint 1)]), some (.gbytes true [("k1", .gint 2)])]⟩,
     ⟨"extra", [some (.gint 7), some (.gint 8)]⟩]⟩

def sampleHybridMode7 : HybridMode :=
  ⟨[⟨"", "", 0, [], .dense⟩, ⟨"", "", 0, [], .sparse⟩], 7⟩

def sampleConf50 : RetrieverConfig :=
  ⟨true, false, "c", [], "vector", "sparse_vector", ["*"], 50, true, true⟩

def sampleConfZeroTopK : RetrieverConfig :=
  ⟨true, false, "", [], "", "", [], 0, true, true⟩

def sampleIteratorMode : IteratorMode := ⟨"L2", 100, []⟩

def sampleRangeMode : RangeMode := ⟨"L2", 1 / 2, none⟩

/-! ## Helper lemmas -/

lemma addDefaultBM25_sparse (c : IndexerConfig) :
    c.addDefaultBM25Function.sparse = c.sparse := by
  unfold IndexerConfig.addDefaultBM25Function
  cases h : c.sparse <;> simp only [h]
  split_ifs <;> simp [h]

lemma addDefaultBM25_functions (c : IndexerConfig) (s : SparseVectorConfig)
    (hs : c.sparse = some s) :
    c.addDefaultBM25Function.functions =
      if s.method = SparseMethodAuto then
        if c.functions.any (fun fn => fn.outputFieldNames.any (fun o => o = s.vectorField))
        then c.functions
        else c.functions ++ [newBM25Function s.vectorField]
      else c.functions := by
  unfold IndexerConfig.addDefaultBM25Function
  simp only [hs]
  split_ifs <;> rfl

/-- Characterization of a successful `IndexerConfig.validate` run on a
configuration with a sparse section: the resolved sparse section and the
final functions list. -/
lemma addDefaultBM25_vector (c : IndexerConfig) :
    c.addDefaultBM25Function.vector = c.vector := by
  unfold IndexerConfig.addDefaultBM25Function
  cases h : c.sparse <;> simp only [h]
  split_ifs <;> simp

lemma stepCollection_fields (c : IndexerConfig) :
    (stepCollection c).sparse = c.sparse ∧ (stepCollection c).vector = c.vector ∧
      (stepCollection c).functions = c.functions := by
  unfold stepCollection; split_ifs <;> simp

lemma stepDescription_fields (c : IndexerConfig) :
    (stepDescription c).sparse = c.sparse ∧ (stepDescription c).vector = c.vector ∧
      (stepDescription c).functions = c.functions := by
  unfold stepDescription; split_ifs <;> simp

lemma stepVector_fields (c : IndexerConfig) :
    (stepVector c).sparse = c.sparse ∧ (stepVector c).functions = c.functions := by
  unfold stepVector; cases h : c.vector <;> simp

lemma stepConverter_fields (c : IndexerConfig) :
    (stepConverter c).sparse = c.sparse ∧ (stepConverter c).vector = c.vector ∧
      (stepConverter c).functions = c.functions := by
  unfold stepConverter; split_ifs <;> simp

lemma stepSparse_sparse (c : IndexerConfig) (s : SparseVectorConfig)
    (hs : c.sparse = some s) :
    (stepSparse c).sparse = some (resolveSparse s) := by
  unfold stepSparse
  simp only [hs, addDefaultBM25_sparse]

lemma stepSparse_functions (c : IndexerConfig) (s : SparseVectorConfig)
    (hs : c.sparse = some s) :
    (stepSparse c).functions =
      (if (resolveSparse s).method = SparseMethodAuto then
        if c.functions.any
            (fun fn => fn.outputFieldNames.any (fun o => o = (resolveSparse s).vectorField))
        then c.functions
        else c.functions ++ [newBM25Function (resolveSparse s).vectorField]
       else c.functions) := by
  unfold stepSparse
  simp only [hs]
  rw [addDefaultBM25_functions _ (resolveSparse s) (by simp)]

lemma applyDefaults_sparse (c : IndexerConfig) (s : SparseVectorConfig)
    (hs : c.sparse = some s) :
    c.applyDefaults.sparse = some (resolveSparse s) := by
  unfold IndexerConfig.applyDefaults
  rw [(stepConverter_fields _).1,
    stepSparse_sparse _ s
      (by rw [(stepVector_fields _).1, (stepDescription_fields _).1,
        (stepCollection_fields _).1, hs])]

lemma applyDefaults_functions (c : IndexerConfig) (s : SparseVectorConfig)
    (hs : c.sparse = some s) :
    c.applyDefaults.functions =
      (if (resolveSparse s).method = SparseMethodAuto then
        if c.functions.any
            (fun fn => fn.outputFieldNames.any (fun o => o = (resolveSparse s).vectorField))
        then c.functions
        else c.functions ++ [newBM25Function (resolveSparse s).vectorField]
       else c.functions) := by
  unfold IndexerConfig.applyDefaults
  rw [(stepConverter_fields _).2.2,
    stepSparse_functions _ s
      (by rw [(stepVector_fields _).1, (stepDescription_fields _).1,
        (stepCollection_fields _).1, hs]),
    (stepVector_fields _).2, (stepDescription_fields _).2.2,
    (stepCollection_fields _).2.2]

lemma validate_ok_iff (c : IndexerConfig) :
    c.validate = .ok c.applyDefaults ↔
      ((!c.hasClient && !c.hasClientConfig) = false ∧
        (c.vector.isNone && c.sparse.isNone) = false) := by
  unfold IndexerConfig.validate
  split_ifs <;> simp_all [Option.isSome_iff_ne_none]

lemma validate_ok_inv (c c' : IndexerConfig) (hok : c.validate = .ok c') :
    c' = c.applyDefaults ∧
      (!c.hasClient && !c.hasClientConfig) = false ∧
      (c.vector.isNone && c.sparse.isNone) = false := by
  unfold IndexerConfig.validate at hok
  split_ifs at hok <;> simp_all [Option.isSome_iff_ne_none]

lemma resolveSparse_metricType (s : SparseVectorConfig) :
    (resolveSparse s).metricType = (if s.metricType = "" then BM25 else s.metricType) := by
  by_cases h1 : s.vectorField = "" <;> by_cases h2 : s.metricType = "" <;>
    by_cases h3 : s.method = "" <;>
      simp [resolveSparse, h1, h2, h3, BM25] <;> split_ifs <;> simp_all

lemma resolveSparse_method_empty (s : SparseVectorConfig) (h : s.method = "") :
    (resolveSparse s).method =
      (if (if s.metricType = "" then BM25 else s.metricType) = BM25
       then SparseMethodAuto else SparseMethodPrecomputed) := by
  by_cases h1 : s.vectorField = "" <;> by_cases h2 : s.metricType = "" <;>
    simp [resolveSparse, h1, h2, h, BM25] <;> split_ifs <;> simp_all

lemma resolveSparse_method_nonempty (s : SparseVectorConfig) (h : s.method ≠ "") :
    (resolveSparse s).method = s.method := by
  by_cases h1 : s.vectorField = "" <;> by_cases h2 : s.metricType = "" <;>
    simp [resolveSparse, h1, h2, h, BM25] <;> split_ifs <;> simp_all

/-! ## Claim theorems -/

/-- C1: for every `IndexerConfig` with a non-nil `Sparse` section whose
`Method` is empty, after `validate()` succeeds the resolved `Sparse.Method`
is `SparseMethodAuto` if the resolved `Sparse.MetricType` is `BM25` (an empty
`Sparse.MetricType` being first defaulted to `BM25`) and
`SparseMethodPrecomputed` for every other metric type; a non-empty
user-supplied `Method` is left unchanged. -/
theorem sparse_method_defaulting (c c' : IndexerConfig) (s : SparseVectorConfig)
    (hs : c.sparse = some s) (hok : c.validate = .ok c') :
    ∃ s', c'.sparse = some s' ∧
      s'.metricType = (if s.metricType = "" then BM25 else s.metricType) ∧
      (s.method = "" →
        s'.method =
          (if (if s.metricType = "" then BM25 else s.metricType) = BM25
           then SparseMethodAuto else SparseMethodPrecomputed)) ∧
      (s.method ≠ "" → s'.method = s.method) := by
  obtain ⟨rfl, -, -⟩ := validate_ok_inv c c' hok
  exact ⟨resolveSparse s, applyDefaults_sparse c s hs, resolveSparse_metricType s,
    fun h => resolveSparse_method_empty s h,
    fun h => resolveSparse_method_nonempty s h⟩

/-- Witness for C1: a config that sets neither `Method` nor `MetricType`
resolves to `SparseMethodAuto`. -/
theorem sparse_method_defaulting_witness :
    ∃ s',
      (IndexerConfig.mk true false "" "" none
          (some (SparseVectorConfig.mk "" "" "")) [] false).applyDefaults.sparse = some s' ∧
      s'.metricType = (if ("" : String) = "" then BM25 else "") ∧
      (("" : String) = "" →
        s'.method =
          (if (if ("" : String) = "" then BM25 else "") = BM25
           then SparseMethodAuto else SparseMethodPrecomputed)) ∧
      (("" : String) ≠ "" → s'.method = "") :=
  sparse_method_defaulting
    (IndexerConfig.mk true false "" "" none (some (SparseVectorConfig.mk "" "" "")) [] false)
    (IndexerConfig.mk true false "" "" none (some (SparseVectorConfig.mk "" "" "")) []
        false).applyDefaults
    (SparseVectorConfig.mk "" "" "") rfl ((validate_ok_iff _).mpr ⟨rfl, rfl⟩)

/-- C2: when validation succeeds with a sparse field whose resolved method
is `SparseMethodAuto`, the resulting functions list contains a function
outputting the sparse vector field, and the `bm25_auto` function is appended
exactly when no user function already outputs that field; with
`SparseMethodPrecomputed` the functions list is unchanged. -/
theorem auto_bm25_function (c c' : IndexerConfig) (s : SparseVectorConfig)
    (hs : c.sparse = some s) (hok : c.validate = .ok c') :
    ((resolveSparse s).method = SparseMethodAuto →
      (∃ fn ∈ c'.functions, (resolveSparse s).vectorField ∈ fn.outputFieldNames) ∧
      c'.functions =
        (if c.functions.any
            (fun fn => fn.outputFieldNames.any (fun o => o = (resolveSparse s).vectorField))
         then c.functions
         else c.functions ++ [newBM25Function (resolveSparse s).vectorField])) ∧
    ((resolveSparse s).method = SparseMethodPrecomputed → c'.functions = c.functions) := by
  obtain ⟨rfl, -, -⟩ := validate_ok_inv c c' hok
  have hfe := applyDefaults_functions c s hs
  constructor
  · intro hauto
    rw [hauto, if_pos rfl] at hfe
    refine ⟨?_, hfe⟩
    by_cases hany :
        c.functions.any
          (fun fn => fn.outputFieldNames.any (fun o => o = (resolveSparse s).vectorField)) = true
    · rw [if_pos hany] at hfe
      obtain ⟨fn, hfn, ho⟩ := List.any_eq_true.mp hany
      obtain ⟨o, ho1, ho2⟩ := List.any_eq_true.mp ho
      refine ⟨fn, by rw [hfe]; exact hfn, ?_⟩
      have : o = (resolveSparse s).vectorField := of_decide_eq_true ho2
      rwa [this] at ho1
    · rw [if_neg hany] at hfe
      refine ⟨newBM25Function (resolveSparse s).vectorField, ?_, ?_⟩
      · rw [hfe]
        exact List.mem_append_right _ (List.mem_singleton.mpr rfl)
      · simp [newBM25Function]
  · intro hprec
    rw [hfe, if_neg]
    rw [hprec]
    decide

/-- Witness for C2: with an empty sparse section and no user functions, the
`bm25_auto` function is appended. -/
theorem auto_bm25_function_witness :
    ((resolveSparse (SparseVectorConfig.mk "" "" "")).method = SparseMethodAuto →
      (∃ fn ∈ (IndexerConfig.mk true false "" "" none
          (some (SparseVectorConfig.mk "" "" "")) [] false).applyDefaults.functions,
        (resolveSparse (SparseVectorConfig.mk "" "" "")).vectorField ∈ fn.outputFieldNames) ∧
      (IndexerConfig.mk true false "" "" none
          (some (SparseVectorConfig.mk "" "" "")) [] false).applyDefaults.functions =
        (if ([] : List IdxFunction).any
            (fun fn =>
              fn.outputFieldNames.any
                (fun o => o = (resolveSparse (SparseVectorConfig.mk "" "" "")).vectorField))
         then ([] : List IdxFunction)
         else ([] : List IdxFunction) ++
           [newBM25Function (resolveSparse (SparseVectorConfig.mk "" "" "")).vectorField])) ∧
    ((resolveSparse (SparseVectorConfig.mk "" "" "")).method = SparseMethodPrecomputed →
      (IndexerConfig.mk true false "" "" none
          (some (SparseVectorConfig.mk "" "" "")) [] false).applyDefaults.functions =
        ([] : List IdxFunction)) :=
  auto_bm25_function
    (IndexerConfig.mk true false "" "" none (some (SparseVectorConfig.mk "" "" "")) [] false)
    (IndexerConfig.mk true false "" "" none (some (SparseVectorConfig.mk "" "" "")) []
        false).applyDefaults
    (SparseVectorConfig.mk "" "" "") rfl ((validate_ok_iff _).mpr ⟨rfl, rfl⟩)

/-- C6: `Scalar.BuildQueryOption` combines the query string and the filter
option by string concatenation: both non-empty gives
`"(" ++ query ++ ") and (" ++ filter ++ ")"`, only the filter non-empty
gives the filter alone, and otherwise the query string is unchanged. -/
theorem scalar_filter_expression (conf : RetrieverConfig) (query : String)
    (callTopK : Option Int) (io : ImplOpts) (opt : QueryOptionModel)
    (hok : scalarBuildQueryOption conf query callTopK io = .ok opt) :
    opt.filterExpr =
      (if query ≠ "" ∧ io.filter ≠ "" then "(" ++ query ++ ") and (" ++ io.filter ++ ")"
       else if io.filter ≠ "" then io.filter
       else query) := by
  simp only [scalarBuildQueryOption, Except.ok.injEq] at hok
  subst hok
  by_cases hq : query = "" <;> by_cases hf : io.filter = "" <;> simp [hq, hf]

/-- Witness for C6 at a concrete query and filter. -/
theorem scalar_filter_expression_witness :
    (QueryOptionModel.mk "eino_collection" "(age > 1) and (id > 10)" ["*"] 5 []).filterExpr =
      (if ("age > 1" : String) ≠ "" ∧ ("id > 10" : String) ≠ "" then
        "(" ++ "age > 1" ++ ") and (" ++ "id > 10" ++ ")"
       else if ("id > 10" : String) ≠ "" then "id > 10"
       else "age > 1") :=
  scalar_filter_expression
    (RetrieverConfig.mk true false "eino_collection" [] "vector" "sparse_vector" ["*"] 5
      true true)
    "age > 1" none (ImplOpts.mk "id > 10" none)
    (QueryOptionModel.mk "eino_collection" "(age > 1) and (id > 10)" ["*"] 5 []) rfl

lemma mapM_ok_mem {α β : Type} (f : α → Except String β) :
    ∀ (l : List α) (rs : List β), l.mapM f = .ok rs → ∀ a ∈ l, ∃ b, f a = .ok b := by
  intro l
  induction l with
  | nil => intro rs _ a ha; cases ha
  | cons x xs ih =>
    intro rs h a ha
    rw [List.mapM_cons] at h
    cases hx : f x with
    | error e => rw [hx] at h; simp [Bind.bind, Except.bind] at h
    | ok b =>
      rw [hx] at h
      simp only [Bind.bind, Except.bind] at h
      cases hxs : xs.mapM f with
      | error e => rw [hxs] at h; simp at h
      | ok bs =>
        rcases List.mem_cons.mp ha with rfl | ha
        · exact ⟨b, hx⟩
        · exact ih bs hxs a ha

/-- C9: `Hybrid.BuildHybridSearchOption` errors with fewer than 2
sub-requests and errors when a dense sub-request sees an empty query vector;
`Hybrid.BuildSearchOption` and `Iterator.BuildSearchOption` error
unconditionally. -/
theorem hybrid_iterator_guards (h : HybridMode) (conf : RetrieverConfig)
    (queryVector : List ℚ) (query : String) (callTopK : Option Int) (io : ImplOpts) :
    (h.subRequests.length < 2 →
      ∃ e, hybridBuildHybridSearchOption h conf queryVector query callTopK io = .error e) ∧
    (queryVector = [] →
      (∃ sub ∈ h.subRequests, sub.vectorType ≠ VectorType.sparse) →
      ∃ e, hybridBuildHybridSearchOption h conf queryVector query callTopK io = .error e) ∧
    (∃ e, hybridBuildSearchOption h conf queryVector = .error e) ∧
    (∀ m : IteratorMode, ∃ e, iteratorBuildSearchOption m conf queryVector = .error e) := by
  refine ⟨?_, ?_, ⟨_, rfl⟩, fun m => ⟨_, rfl⟩⟩
  · intro hlen
    unfold hybridBuildHybridSearchOption
    rw [if_pos hlen]
    exact ⟨_, rfl⟩
  · rintro rfl ⟨sub, hsub, hdense⟩
    unfold hybridBuildHybridSearchOption
    by_cases hlen : h.subRequests.length < 2
    · rw [if_pos hlen]
      exact ⟨_, rfl⟩
    rw [if_neg hlen]
    cases hr : h.subRequests.mapM (buildAnnRequest conf io [] query) with
    | error e =>
      refine ⟨e, ?_⟩
      simp [hr]
    | ok rs =>
      exfalso
      obtain ⟨b, hb⟩ := mapM_ok_mem _ _ _ hr sub hsub
      have : sub.vectorType = VectorType.dense := by
        cases hv : sub.vectorType
        · rfl
        · exact absurd hv hdense
      unfold buildAnnRequest at hb
      rw [this] at hb
      simp at hb

/-- Witness for C9: a single-sub-request hybrid mode and a dense
sub-request with an empty query vector both error. -/
theorem hybrid_iterator_guards_witness :
    ((HybridMode.mk [SubRequest.mk "" "" 0 [] VectorType.dense] 0).subRequests.length < 2 →
      ∃ e,
        hybridBuildHybridSearchOption (HybridMode.mk [SubRequest.mk "" "" 0 [] VectorType.dense] 0)
          (RetrieverConfig.mk true false "c" [] "vector" "sparse_vector" ["*"] 5 true true)
          [] "q" none noImplOpts = .error e) ∧
    (([] : List ℚ) = [] →
      (∃ sub ∈ (HybridMode.mk [SubRequest.mk "" "" 0 [] VectorType.dense] 0).subRequests,
        sub.vectorType ≠ VectorType.sparse) →
      ∃ e,
        hybridBuildHybridSearchOption (HybridMode.mk [SubRequest.mk "" "" 0 [] VectorType.dense] 0)
          (RetrieverConfig.mk true false "c" [] "vector" "sparse_vector" ["*"] 5 true true)
          [] "q" none noImplOpts = .error e) ∧
    (∃ e,
      hybridBuildSearchOption (HybridMode.mk [SubRequest.mk "" "" 0 [] VectorType.dense] 0)
        (RetrieverConfig.mk true false "c" [] "vector" "sparse_vector" ["*"] 5 true true)
        [] = .error e) ∧
    (∀ m : IteratorMode, ∃ e,
      iteratorBuildSearchOption m
        (RetrieverConfig.mk true false "c" [] "vector" "sparse_vector" ["*"] 5 true true)
        [] = .error e) :=
  hybrid_iterator_guards (HybridMode.mk [SubRequest.mk "" "" 0 [] VectorType.dense] 0)
    (RetrieverConfig.mk true false "c" [] "vector" "sparse_vector" ["*"] 5 true true)
    [] "q" none noImplOpts

lemma idxConvLoop_own_ok (f32 : ℚ → ℚ)
    (marshal : List (String × GoVal) → Except String (List (String × GoVal)))
    (denseField : String) (hd : denseField ≠ "") (docsLen : Nat)
    (hne : (0 : Nat) ≠ docsLen)
    (hm : ∀ meta, ∃ out, marshal meta = .ok out) :
    ∀ (docs : List IdxDocument) (idx : Nat),
      (∀ d ∈ docs, d.denseVector ≠ []) →
      ∃ metadatas,
        idxConvLoop f32 marshal denseField "" [] docsLen idx docs =
          .ok (docs.map IdxDocument.id, docs.map IdxDocument.content,
            docs.map (fun d => d.denseVector.map f32), metadatas, []) := by
  intro docs
  induction docs with
  | nil =>
    intro idx _
    exact ⟨[], rfl⟩
  | cons doc rest ih =>
    intro idx hall
    obtain ⟨out, hout⟩ := hm doc.metaData
    obtain ⟨metas, hrec⟩ := ih (idx + 1) (fun d hd' => hall d (List.mem_cons_of_mem _ hd'))
    refine ⟨out :: metas, ?_⟩
    have hv : doc.denseVector ≠ [] := hall doc (List.mem_cons_self _ _)
    have hvl : ¬(doc.denseVector.length = 0) := by
      simpa [List.length_eq_zero] using hv
    simp [idxConvLoop, List.length_nil, hne, hd, hvl, hout, hrec]

lemma idxConvLoop_dense_missing (f32 : ℚ → ℚ)
    (marshal : List (String × GoVal) → Except String (List (String × GoVal)))
    (denseField : String) (hd : denseField ≠ "") (docsLen : Nat)
    (hne : (0 : Nat) ≠ docsLen)
    (hm : ∀ meta, ∃ out, marshal meta = .ok out) :
    ∀ (docs : List IdxDocument) (idx : Nat),
      (∃ d ∈ docs, d.denseVector = []) →
      ∃ e, idxConvLoop f32 marshal denseField "" [] docsLen idx docs = .error e := by
  intro docs
  induction docs with
  | nil =>
    rintro idx ⟨d, hd', -⟩
    cases hd'
  | cons doc rest ih =>
    rintro idx ⟨d, hd', hv⟩
    by_cases hv0 : doc.denseVector = []
    · simp [idxConvLoop, List.length_nil, hne, hd, hv0]
    · rcases List.mem_cons.mp hd' with rfl | hd''
      · exact absurd hv hv0
      obtain ⟨out, hout⟩ := hm doc.metaData
      obtain ⟨e, herr⟩ := ih (idx + 1) ⟨d, hd'', hv⟩
      refine ⟨e, ?_⟩
      have hvl : ¬(doc.denseVector.length = 0) := by
        simpa [List.length_eq_zero] using hv0
      simp [idxConvLoop, List.length_nil, hne, hd, hvl, hout, herr]

/-- C7: `EmbedQuery` errors exactly when the embedder is nil, the embedder
call fails, or the number of returned vectors differs from 1, and otherwise
converts the single `float64` vector elementwise to `float32`; the indexer's
default document converter applies the same elementwise conversion to each
document's dense vector and errors when a required dense vector is missing. -/
theorem float_vector_conversion (f32 : ℚ → ℚ)
    (marshal : List (String × GoVal) → Except String (List (String × GoVal)))
    (hm : ∀ meta, ∃ out, marshal meta = .ok out) :
    (EmbedQuery f32 none = .error "[Retriever] embedding not provided") ∧
    (∀ e, EmbedQuery f32 (some (.error e)) =
      .error ("[Retriever] failed to embed query: " ++ e)) ∧
    (∀ vectors : List (List ℚ), vectors.length ≠ 1 →
      ∃ e, EmbedQuery f32 (some (.ok vectors)) = .error e) ∧
    (∀ v : List ℚ,
      EmbedQuery f32 (some (.ok [v])) = .ok (v.map f32) ∧
      (v.map f32).length = v.length ∧
      ∀ i : Nat, (v.map f32)[i]? = (v[i]?).map f32) ∧
    (∀ (vc : VectorConfig) (docs : List IdxDocument), vc.vectorField ≠ "" → docs ≠ [] →
      ((∀ d ∈ docs, d.denseVector ≠ []) →
        ∃ dim metadatas,
          indexerDocumentConverter f32 marshal (some vc) none docs [] =
            .ok [.varcharCol defaultIDField (docs.map IdxDocument.id),
              .varcharCol defaultContentField (docs.map IdxDocument.content),
              .jsonBytesCol defaultMetadataField metadatas,
              .floatVectorCol vc.vectorField dim
                (docs.map (fun d => d.denseVector.map f32))]) ∧
      ((∃ d ∈ docs, d.denseVector = []) →
        ∃ e, indexerDocumentConverter f32 marshal (some vc) none docs [] = .error e)) := by
  refine ⟨rfl, fun e => rfl, ?_, ?_, ?_⟩
  · intro vectors hlen
    simp only [EmbedQuery]
    rw [if_pos hlen]
    exact ⟨_, rfl⟩
  · intro v
    refine ⟨?_, by simp, fun i => by simp⟩
    simp only [EmbedQuery]
    norm_num [List.headI]
  · intro vc docs hvf hne
    have hlen : (0 : Nat) ≠ docs.length := by
      intro h0
      exact hne (List.length_eq_zero.mp h0.symm)
    constructor
    · intro hall
      obtain ⟨metas, hloop⟩ :=
        idxConvLoop_own_ok f32 marshal vc.vectorField hvf docs.length hlen hm docs 0 hall
      refine
        ⟨(match docs.map (fun d => d.denseVector.map f32) with
          | [] => 0
          | v :: _ => v.length), metas, ?_⟩
      simp only [indexerDocumentConverter]
      rw [hloop]
      simp [hvf]
    · rintro hmiss
      obtain ⟨e, hloop⟩ :=
        idxConvLoop_dense_missing f32 marshal vc.vectorField hvf docs.length hlen hm docs 0 hmiss
      refine ⟨e, ?_⟩
      simp only [indexerDocumentConverter]
      rw [hloop]

/-- Witness for C7 at a concrete embedder result and document batch. -/
theorem float_vector_conversion_witness :
    ((EmbedQuery id none = .error "[Retriever] embedding not provided") ∧
      (∀ e, EmbedQuery id (some (.error e)) =
        .error ("[Retriever] failed to embed query: " ++ e)) ∧
      (∀ vectors : List (List ℚ), vectors.length ≠ 1 →
        ∃ e, EmbedQuery id (some (.ok vectors)) = .error e) ∧
      (∀ v : List ℚ,
        EmbedQuery id (some (.ok [v])) = .ok (v.map id) ∧
        (v.map id).length = v.length ∧
        ∀ i : Nat, (v.map id)[i]? = (v[i]?).map id) ∧
      (∀ (vc : VectorConfig) (docs : List IdxDocument), vc.vectorField ≠ "" → docs ≠ [] →
        ((∀ d ∈ docs, d.denseVector ≠ []) →
          ∃ dim metadatas,
            indexerDocumentConverter id (fun m => .ok m) (some vc) none docs [] =
              .ok [.varcharCol defaultIDField (docs.map IdxDocument.id),
                .varcharCol defaultContentField (docs.map IdxDocument.content),
                .jsonBytesCol defaultMetadataField metadatas,
                .floatVectorCol vc.vectorField dim
                  (docs.map (fun d => d.denseVector.map id))]) ∧
        ((∃ d ∈ docs, d.denseVector = []) →
          ∃ e, indexerDocumentConverter id (fun m => .ok m) (some vc) none docs [] =
            .error e))) ∧
      (0 : ℚ) = 0 :=
  ⟨float_vector_conversion id (fun m => .ok m) (fun meta => ⟨meta, rfl⟩), rfl⟩

lemma iteratorLoop_batches (conv : ResultSet → Except String (List Document)) :
    ∀ (batches : List ResultSet) (docss : List (List Document)),
      List.Forall₂ (fun rs ds => rs.resultCount ≠ 0 ∧ conv rs = .ok ds) batches docss →
      ∀ (term : NextOutcome) (rest : List NextOutcome),
        (term = .eofErr ∨ ∃ rs0, rs0.resultCount = 0 ∧ term = .batch rs0) →
        iteratorLoop conv (batches.map NextOutcome.batch ++ term :: rest) = .ok docss.join := by
  intro batches docss hf
  induction hf with
  | nil =>
    rintro term rest (rfl | ⟨rs0, h0, rfl⟩)
    · rfl
    · simp [iteratorLoop, h0]
  | cons hpair hrest ih =>
    rintro term rest hterm
    obtain ⟨hcnt, hconv⟩ := hpair
    simp [iteratorLoop, hcnt, hconv, ih term rest hterm]

lemma iteratorLoop_next_failure (conv : ResultSet → Except String (List Document)) :
    ∀ (batches : List ResultSet) (docss : List (List Document)),
      List.Forall₂ (fun rs ds => rs.resultCount ≠ 0 ∧ conv rs = .ok ds) batches docss →
      ∀ (e : String) (rest : List NextOutcome),
        iteratorLoop conv (batches.map NextOutcome.batch ++ .failure e :: rest) =
          .error ("iterator next failed: " ++ e) := by
  intro batches docss hf
  induction hf with
  | nil => intro e rest; rfl
  | cons hpair hrest ih =>
    intro e rest
    obtain ⟨hcnt, hconv⟩ := hpair
    simp [iteratorLoop, hcnt, hconv, ih e rest]

lemma iteratorLoop_conv_failure (conv : ResultSet → Except String (List Document)) :
    ∀ (batches : List ResultSet) (docss : List (List Document)),
      List.Forall₂ (fun rs ds => rs.resultCount ≠ 0 ∧ conv rs = .ok ds) batches docss →
      ∀ (rs : ResultSet) (e : String) (rest : List NextOutcome),
        rs.resultCount ≠ 0 → conv rs = .error e →
        iteratorLoop conv (batches.map NextOutcome.batch ++ .batch rs :: rest) =
          .error ("failed to convert batch results: " ++ e) := by
  intro batches docss hf
  induction hf with
  | nil =>
    intro rs e rest hcnt hconv
    simp only [List.map_nil, List.nil_append, iteratorLoop, if_neg hcnt, hconv]
  | cons hpair hrest ih =>
    intro rs e rest hcnt hconv
    obtain ⟨hcnt', hconv'⟩ := hpair
    simp [iteratorLoop, hcnt', hconv', ih rs e rest hcnt hconv]

/-- C5: `Iterator.Retrieve` returns the in-order concatenation of the
document-converted batches, stopping exactly at `io.EOF` or an empty batch;
it errors when the embedding is nil, when the embedder fails, when the
iterator cannot be created, on any other `Next` failure, and on a
conversion failure. -/
theorem iterator_retrieve_concatenation (f32 : ℚ → ℚ) (m : IteratorMode)
    (conf : RetrieverConfig) (conv : ResultSet → Except String (List Document))
    (callTopK : Option Int) (io : ImplOpts) (v : List ℚ)
    (batches : List ResultSet) (docss : List (List Document))
    (rest : List NextOutcome)
    (hf : List.Forall₂ (fun rs ds => rs.resultCount ≠ 0 ∧ conv rs = .ok ds) batches docss) :
    (∀ term, (term = .eofErr ∨ ∃ rs0, rs0.resultCount = 0 ∧ term = .batch rs0) →
      iteratorRetrieve f32 m conf (some (.ok [v])) conv
        (.ok (batches.map NextOutcome.batch ++ term :: rest)) callTopK io = .ok docss.join) ∧
    (∀ cursorResp, iteratorRetrieve f32 m conf none conv cursorResp callTopK io =
      .error "embedding is required for iterator search") ∧
    (∀ e cursorResp, iteratorRetrieve f32 m conf (some (.error e)) conv cursorResp callTopK io =
      .error ("[Retriever] failed to embed query: " ++ e)) ∧
    (∀ e, iteratorRetrieve f32 m conf (some (.ok [v])) conv (.error e) callTopK io =
      .error ("failed to create search iterator: " ++ e)) ∧
    (∀ e, iteratorRetrieve f32 m conf (some (.ok [v])) conv
        (.ok (batches.map NextOutcome.batch ++ .failure e :: rest)) callTopK io =
      .error ("iterator next failed: " ++ e)) ∧
    (∀ rs e, rs.resultCount ≠ 0 → conv rs = .error e →
      iteratorRetrieve f32 m conf (some (.ok [v])) conv
        (.ok (batches.map NextOutcome.batch ++ .batch rs :: rest)) callTopK io =
      .error ("failed to convert batch results: " ++ e)) := by
  refine ⟨?_, fun cursorResp => rfl, fun e cursorResp => rfl, ?_, ?_, ?_⟩
  · intro term hterm
    simp only [iteratorRetrieve, EmbedQuery, List.length_singleton, ne_eq,
      iteratorBuildSearchIteratorOption]
    norm_num
    exact iteratorLoop_batches conv batches docss hf term rest hterm
  · intro e
    simp only [iteratorRetrieve, EmbedQuery, List.length_singleton, ne_eq,
      iteratorBuildSearchIteratorOption]
    norm_num
  · intro e
    simp only [iteratorRetrieve, EmbedQuery, List.length_singleton, ne_eq,
      iteratorBuildSearchIteratorOption]
    norm_num
    exact iteratorLoop_next_failure conv batches docss hf e rest
  · intro rs e hcnt hconv
    simp only [iteratorRetrieve, EmbedQuery, List.length_singleton, ne_eq,
      iteratorBuildSearchIteratorOption]
    norm_num
    exact iteratorLoop_conv_failure conv batches docss hf rs e rest hcnt hconv

/-- Witness for C5: a single non-empty batch followed by `io.EOF`. -/
theorem iterator_retrieve_concatenation_witness :
    ((∀ term,
        (term = NextOutcome.eofErr ∨ ∃ rs0, rs0.resultCount = 0 ∧ term = .batch rs0) →
        iteratorRetrieve id (IteratorMode.mk "L2" 100 [])
          (RetrieverConfig.mk true false "c" [] "vector" "sparse_vector" ["*"] 5 true true)
          (some (.ok [[1]])) (fun _ => .ok ([] : List Document))
          (.ok ([ResultSet.mk 1 [] []].map NextOutcome.batch ++ term :: []))
          none noImplOpts = .ok ([([] : List Document)] : List (List Document)).join) ∧
      (∀ cursorResp,
        iteratorRetrieve id (IteratorMode.mk "L2" 100 [])
          (RetrieverConfig.mk true false "c" [] "vector" "sparse_vector" ["*"] 5 true true)
          none (fun _ => .ok ([] : List Document)) cursorResp none noImplOpts =
          .error "embedding is required for iterator search") ∧
      (∀ e cursorResp,
        iteratorRetrieve id (IteratorMode.mk "L2" 100 [])
          (RetrieverConfig.mk true false "c" [] "vector" "sparse_vector" ["*"] 5 true true)
          (some (.error e)) (fun _ => .ok ([] : List Document)) cursorResp none noImplOpts =
          .error ("[Retriever] failed to embed query: " ++ e)) ∧
      (∀ e,
        iteratorRetrieve id (IteratorMode.mk "L2" 100 [])
          (RetrieverConfig.mk true false "c" [] "vector" "sparse_vector" ["*"] 5 true true)
          (some (.ok [[1]])) (fun _ => .ok ([] : List Document)) (.error e) none noImplOpts =
          .error ("failed to create search iterator: " ++ e)) ∧
      (∀ e,
        iteratorRetrieve id (IteratorMode.mk "L2" 100 [])
          (RetrieverConfig.mk true false "c" [] "vector" "sparse_vector" ["*"] 5 true true)
          (some (.ok [[1]])) (fun _ => .ok ([] : List Document))
          (.ok ([ResultSet.mk 1 [] []].map NextOutcome.batch ++ .failure e :: []))
          none noImplOpts = .error ("iterator next failed: " ++ e)) ∧
      (∀ rs e, rs.resultCount ≠ 0 →
        (Except.ok ([] : List Document) : Except String (List Document)) = Except.error e →
        iteratorRetrieve id (IteratorMode.mk "L2" 100 [])
          (RetrieverConfig.mk true false "c" [] "vector" "sparse_vector" ["*"] 5 true true)
          (some (.ok [[1]])) (fun _ => .ok ([] : List Document))
          (.ok ([ResultSet.mk 1 [] []].map NextOutcome.batch ++ .batch rs :: []))
          none noImplOpts = .error ("failed to convert batch results: " ++ e))) :=
  iterator_retrieve_concatenation id (IteratorMode.mk "L2" 100 [])
    (RetrieverConfig.mk true false "c" [] "vector" "sparse_vector" ["*"] 5 true true)
    (fun _ => .ok ([] : List Document)) none noImplOpts [1]
    [ResultSet.mk 1 [] []] [[]] []
    (List.Forall₂.cons ⟨by decide, rfl⟩ List.Forall₂.nil)

lemma sparseFill_ok (f32 : ℚ → ℚ) (sv : List (Int × ℚ)) :
    ∀ ks : List Int, (∀ k ∈ ks, 0 ≤ k ∧ k < 2 ^ 32) →
      sparseFill f32 sv ks =
        .ok (ks.map Int.toNat, ks.map (fun k => f32 ((sv.lookup k).getD 0))) := by
  intro ks
  induction ks with
  | nil => intro _; rfl
  | cons k rest ih =>
    intro hall
    obtain ⟨h0, hlt⟩ := hall k (List.mem_cons_self _ _)
    have hlt' : k < (4294967296 : Int) := by
      norm_num at hlt
      exact hlt
    have hmod : k % (4294967296 : Int) = k := Int.emod_eq_of_lt h0 hlt'
    have hneg : ¬(k < 0) := not_lt.mpr h0
    simp [sparseFill, hneg, ih (fun x hx => hall x (List.mem_cons_of_mem _ hx)), hmod]

lemma sparseFill_error_of_neg (f32 : ℚ → ℚ) (sv : List (Int × ℚ)) :
    ∀ ks : List Int, (∃ k ∈ ks, k < 0) →
      ∃ e, sparseFill f32 sv ks = .error e := by
  intro ks
  induction ks with
  | nil =>
    rintro ⟨k, hk, -⟩
    cases hk
  | cons k rest ih =>
    rintro ⟨k', hk', hneg'⟩
    by_cases hk0 : k < 0
    · refine ⟨"negative sparse index: " ++ toString k, ?_⟩
      simp [sparseFill, hk0]
    · rcases List.mem_cons.mp hk' with rfl | hmem
      · exact absurd hneg' hk0
      obtain ⟨e, herr⟩ := ih ⟨k', hmem, hneg'⟩
      exact ⟨e, by simp [sparseFill, hk0, herr]⟩

/-- C3 (amended): `toMilvusSparseEmbedding` maps the empty map to an empty
embedding, errors when any key is negative, and — provided every key also
fits in `uint32` — returns the keys in strictly ascending order paired with
the `float32` conversions of their values (`uint32(idx)` truncates keys
modulo `2^32`, so larger keys are stored wrapped). -/
theorem sparse_embedding_conversion (f32 : ℚ → ℚ) (sv : List (Int × ℚ))
    (hnd : (sv.map Prod.fst).Nodup) :
    (sv = [] → toMilvusSparseEmbedding f32 sv = .ok ⟨[], []⟩) ∧
    ((∃ k ∈ sv.map Prod.fst, k < 0) → ∃ e, toMilvusSparseEmbedding f32 sv = .error e) ∧
    (sv ≠ [] → (∀ k ∈ sv.map Prod.fst, 0 ≤ k ∧ k < 2 ^ 32) →
      ∃ ks : List Int, (sv.map Prod.fst).Perm ks ∧ ks.Sorted (· < ·) ∧
        toMilvusSparseEmbedding f32 sv =
          .ok ⟨ks.map Int.toNat, ks.map (fun k => f32 ((sv.lookup k).getD 0))⟩) := by
  refine ⟨?_, ?_, ?_⟩
  · rintro rfl
    rfl
  · rintro ⟨k, hk, hkneg⟩
    have hne : sv ≠ [] := by
      rintro rfl
      cases hk
    have hlen : ¬(sv.length = 0) := by
      simpa [List.length_eq_zero] using hne
    have hmem : k ∈ List.insertionSort (· ≤ ·) (sv.map Prod.fst) :=
      (List.perm_insertionSort (· ≤ ·) (sv.map Prod.fst)).mem_iff.mpr hk
    obtain ⟨e, herr⟩ :=
      sparseFill_error_of_neg f32 sv (List.insertionSort (· ≤ ·) (sv.map Prod.fst))
        ⟨k, hmem, hkneg⟩
    refine ⟨e, ?_⟩
    unfold toMilvusSparseEmbedding
    rw [if_neg hlen]
    simp [herr]
  · intro hne hbound
    refine ⟨List.insertionSort (· ≤ ·) (sv.map Prod.fst),
      (List.perm_insertionSort (· ≤ ·) (sv.map Prod.fst)).symm, ?_, ?_⟩
    · exact
        (List.sorted_insertionSort (· ≤ ·) (sv.map Prod.fst)).lt_of_le
          ((List.perm_insertionSort (· ≤ ·) (sv.map Prod.fst)).nodup_iff.mpr hnd)
    · have hlen : ¬(sv.length = 0) := by
        simpa [List.length_eq_zero] using hne
      have hall : ∀ k ∈ List.insertionSort (· ≤ ·) (sv.map Prod.fst), 0 ≤ k ∧ k < 2 ^ 32 :=
        fun k hk =>
          hbound k ((List.perm_insertionSort (· ≤ ·) (sv.map Prod.fst)).mem_iff.mp hk)
      unfold toMilvusSparseEmbedding
      rw [if_neg hlen]
      simp [sparseFill_ok f32 sv _ hall]

/-- Witness for C3 (amended) at a concrete two-entry map. -/
theorem sparse_embedding_conversion_witness :
    (([((3 : Int), (1 : ℚ) / 2), (1, 2)] : List (Int × ℚ)) = [] →
      toMilvusSparseEmbedding id [((3 : Int), (1 : ℚ) / 2), (1, 2)] = .ok ⟨[], []⟩) ∧
    ((∃ k ∈ ([((3 : Int), (1 : ℚ) / 2), (1, 2)] : List (Int × ℚ)).map Prod.fst, k < 0) →
      ∃ e, toMilvusSparseEmbedding id [((3 : Int), (1 : ℚ) / 2), (1, 2)] = .error e) ∧
    (([((3 : Int), (1 : ℚ) / 2), (1, 2)] : List (Int × ℚ)) ≠ [] →
      (∀ k ∈ ([((3 : Int), (1 : ℚ) / 2), (1, 2)] : List (Int × ℚ)).map Prod.fst,
        0 ≤ k ∧ k < 2 ^ 32) →
      ∃ ks : List Int,
        (([((3 : Int), (1 : ℚ) / 2), (1, 2)] : List (Int × ℚ)).map Prod.fst).Perm ks ∧
        ks.Sorted (· < ·) ∧
        toMilvusSparseEmbedding id [((3 : Int), (1 : ℚ) / 2), (1, 2)] =
          .ok ⟨ks.map Int.toNat,
            ks.map (fun k =>
              id ((([((3 : Int), (1 : ℚ) / 2), (1, 2)] : List (Int × ℚ)).lookup k).getD 0))⟩) :=
  sparse_embedding_conversion id [((3 : Int), (1 : ℚ) / 2), (1, 2)] (by decide)

/-- Counterexample to C3 as stated: with keys `{1, 2^32}` (none negative,
no duplicates) the conversion succeeds but the emitted indices are
`[1, 0]` — `uint32(2^32)` wraps to `0` — which is neither the key set nor
strictly ascending. -/
theorem sparse_embedding_sorted_counterexample :
    toMilvusSparseEmbedding id [((1 : Int), (1 : ℚ)), ((2 : Int) ^ 32, 2)] =
      .ok ⟨[1, 0], [1, 2]⟩ ∧
    ¬ List.Sorted (· < ·) ([1, 0] : List Nat) ∧
    (∀ k ∈ ([((1 : Int), (1 : ℚ)), ((2 : Int) ^ 32, 2)] : List (Int × ℚ)).map Prod.fst,
      0 ≤ k) ∧
    ([1, 0] : List Nat) ≠
      (List.insertionSort (· ≤ ·)
        (([((1 : Int), (1 : ℚ)), ((2 : Int) ^ 32, 2)] : List (Int × ℚ)).map Prod.fst)).map
        Int.toNat := by
  refine ⟨rfl, ?_, by decide, by decide⟩
  simp [List.sorted_cons]

lemma idxCreateCollection_ok_inv (c : IndexerConfig) (b : IndexerBackend)
    (h : idxCreateCollection c b = .ok ()) : b.createCollectionResp = .ok () := by
  unfold idxCreateCollection at h
  split_ifs at h
  cases hc : b.createCollectionResp with
  | error e => rw [hc] at h; simp at h
  | ok u => cases u; rfl

lemma ensureCollectionStep_ok_inv (c : IndexerConfig) (b : IndexerBackend) (hasColl : Bool)
    (h : ensureCollectionStep c b hasColl = .ok ()) :
    hasColl = true ∨ (hasColl = false ∧ b.createCollectionResp = .ok ()) := by
  unfold ensureCollectionStep at h
  cases hasColl with
  | true => exact Or.inl rfl
  | false =>
    refine Or.inr ⟨rfl, ?_⟩
    simp only [Bool.not_false, if_true] at h
    cases hv : c.vector with
    | none =>
      rw [hv] at h
      exact idxCreateCollection_ok_inv c b h
    | some v =>
      rw [hv] at h
      simp only [] at h
      split_ifs at h
      exact idxCreateCollection_ok_inv c b h

lemma loadStep_ok_inv (c : IndexerConfig) (b : IndexerBackend)
    (h : loadStep c b = .ok ()) :
    b.getLoadStateResp = .ok .loaded ∨
      (b.loadCollectionResp = .ok () ∧ b.awaitLoadResp = .ok ()) := by
  unfold loadStep at h
  cases hg : b.getLoadStateResp with
  | error e => rw [hg] at h; simp at h
  | ok st =>
    rw [hg] at h
    simp only [] at h
    cases st with
    | loaded => exact Or.inl rfl
    | notLoaded =>
      rw [if_pos (by decide : (LoadState.notLoaded ≠ LoadState.loaded))] at h
      refine Or.inr ?_
      cases hci : idxCreateIndex c b with
      | error e => rw [hci] at h; simp at h
      | ok u =>
        rw [hci] at h
        simp only [] at h
        cases hl : b.loadCollectionResp with
        | error e => rw [hl] at h; simp at h
        | ok u' =>
          rw [hl] at h
          simp only [] at h
          cases ha : b.awaitLoadResp with
          | error e => rw [ha] at h; simp at h
          | ok u'' =>
            cases u'
            cases u''
            exact ⟨rfl, rfl⟩

lemma initCollection_ok_inv (c : IndexerConfig) (b : IndexerBackend)
    (h : initCollection c b = .ok ()) :
    (b.hasCollectionResp = .ok true ∨
      (b.hasCollectionResp = .ok false ∧ b.createCollectionResp = .ok ())) ∧
    (b.getLoadStateResp = .ok .loaded ∨
      (b.loadCollectionResp = .ok () ∧ b.awaitLoadResp = .ok ())) := by
  unfold initCollection at h
  cases hhc : b.hasCollectionResp with
  | error e => rw [hhc] at h; simp at h
  | ok hasColl =>
    rw [hhc] at h
    simp only [] at h
    cases hec : ensureCollectionStep c b hasColl with
    | error e => rw [hec] at h; simp at h
    | ok u =>
      cases u
      rw [hec] at h
      simp only [] at h
      refine ⟨?_, loadStep_ok_inv c b h⟩
      rcases ensureCollectionStep_ok_inv c b hasColl hec with rfl | ⟨rfl, hcr⟩
      · exact Or.inl rfl
      · exact Or.inr ⟨rfl, hcr⟩

lemma NewIndexer_ok_inv (ci : IndexerConfig) (bi : IndexerBackend)
    (r : ClientSource × IndexerConfig) (h : NewIndexer ci bi = .ok r) :
    ∃ ci', ci.validate = .ok ci' ∧ initCollection ci' bi = .ok () := by
  unfold NewIndexer at h
  cases hv : ci.validate with
  | error e => rw [hv] at h; simp at h
  | ok ci' =>
    rw [hv] at h
    simp only [] at h
    cases hc : indexerInitClient ci' bi with
    | error e => rw [hc] at h; simp at h
    | ok cli =>
      rw [hc] at h
      simp only [] at h
      cases hcol : initCollection ci' bi with
      | error e => rw [hcol] at h; simp at h
      | ok u =>
        cases u
        exact ⟨ci', rfl, hcol⟩

lemma retrieverLoadCollection_ok_inv (c : RetrieverConfig) (b : RetrieverBackend)
    (h : retrieverLoadCollection c b = .ok ()) :
    b.hasCollectionResp = .ok true ∧
      (b.getLoadStateResp = .ok .loaded ∨
        (b.loadCollectionResp = .ok () ∧ b.awaitLoadResp = .ok ())) := by
  unfold retrieverLoadCollection at h
  cases hhc : b.hasCollectionResp with
  | error e => rw [hhc] at h; simp at h
  | ok hasColl =>
    rw [hhc] at h
    simp only [] at h
    cases hasColl with
    | false => simp at h
    | true =>
      refine ⟨rfl, ?_⟩
      simp only [Bool.not_true, Bool.false_eq_true, if_false] at h
      cases hg : b.getLoadStateResp with
      | error e => rw [hg] at h; simp at h
      | ok st =>
        rw [hg] at h
        simp only [] at h
        cases st with
        | loaded => exact Or.inl rfl
        | notLoaded =>
          rw [if_pos (by decide : (LoadState.notLoaded ≠ LoadState.loaded))] at h
          refine Or.inr ?_
          cases hl : b.loadCollectionResp with
          | error e => rw [hl] at h; simp at h
          | ok u' =>
            rw [hl] at h
            simp only [] at h
            cases ha : b.awaitLoadResp with
            | error e => rw [ha] at h; simp at h
            | ok u'' =>
              cases u'
              cases u''
              exact ⟨rfl, rfl⟩

lemma NewRetriever_ok_inv (cr : RetrieverConfig) (br : RetrieverBackend)
    (r : ClientSource × RetrieverConfig) (h : NewRetriever cr br = .ok r) :
    ∃ cr', cr.validate = .ok cr' ∧ retrieverLoadCollection cr' br = .ok () := by
  unfold NewRetriever at h
  cases hv : cr.validate with
  | error e => rw [hv] at h; simp at h
  | ok cr' =>
    rw [hv] at h
    simp only [] at h
    cases hc : retrieverInitClient cr' br with
    | error e => rw [hc] at h; simp at h
    | ok cli =>
      rw [hc] at h
      simp only [] at h
      cases hcol : retrieverLoadCollection cr' br with
      | error e => rw [hcol] at h; simp at h
      | ok u =>
        cases u
        exact ⟨cr', rfl, hcol⟩

/-- C4: both components reuse a provided client, create one from the client
config otherwise, and error when both are nil; a component is returned only
when the collection exists (the indexer creating it when missing, after the
dimension guard) and the loaded state has been reached, while the retriever
errors when the collection does not exist. -/
theorem construction_flow (ci : IndexerConfig) (bi : IndexerBackend)
    (cr : RetrieverConfig) (br : RetrieverBackend) :
    (ci.hasClient = true → indexerInitClient ci bi = .ok .provided) ∧
    (ci.hasClient = false → ci.hasClientConfig = true → bi.newClientResp = .ok () →
      indexerInitClient ci bi = .ok .created) ∧
    (ci.hasClient = false → ci.hasClientConfig = false →
      ∃ e, NewIndexer ci bi = .error e) ∧
    (cr.hasClient = true → retrieverInitClient cr br = .ok .provided) ∧
    (cr.hasClient = false → cr.hasClientConfig = true → br.newClientResp = .ok () →
      retrieverInitClient cr br = .ok .created) ∧
    (cr.hasClient = false → cr.hasClientConfig = false →
      ∃ e, NewRetriever cr br = .error e) ∧
    (∀ r, NewIndexer ci bi = .ok r →
      (bi.hasCollectionResp = .ok true ∨
        (bi.hasCollectionResp = .ok false ∧ bi.createCollectionResp = .ok ())) ∧
      (bi.getLoadStateResp = .ok .loaded ∨
        (bi.loadCollectionResp = .ok () ∧ bi.awaitLoadResp = .ok ()))) ∧
    (∀ ci' v cli, ci.validate = .ok ci' → indexerInitClient ci' bi = .ok cli →
      ci'.vector = some v → v.dimension ≤ 0 → bi.hasCollectionResp = .ok false →
      NewIndexer ci bi =
        .error "[NewIndexer] vector dimension is required when collection does not exist") ∧
    (br.hasCollectionResp = .ok false → ∃ e, NewRetriever cr br = .error e) ∧
    (∀ r, NewRetriever cr br = .ok r →
      br.hasCollectionResp = .ok true ∧
      (br.getLoadStateResp = .ok .loaded ∨
        (br.loadCollectionResp = .ok () ∧ br.awaitLoadResp = .ok ()))) := by
  refine ⟨?_, ?_, ?_, ?_, ?_, ?_, ?_, ?_, ?_, ?_⟩
  · intro h
    unfold indexerInitClient
    rw [if_pos h]
  · intro h1 h2 h3
    unfold indexerInitClient
    rw [h1, h2]
    simp [h3]
  · intro h1 h2
    refine ⟨"[NewIndexer] milvus client or client config not provided", ?_⟩
    unfold NewIndexer IndexerConfig.validate
    rw [h1, h2]
    rfl
  · intro h
    unfold retrieverInitClient
    rw [if_pos h]
  · intro h1 h2 h3
    unfold retrieverInitClient
    rw [h1, h2]
    simp [h3]
  · intro h1 h2
    refine ⟨"[NewRetriever] milvus client or client config not provided", ?_⟩
    unfold NewRetriever RetrieverConfig.validate
    rw [h1, h2]
    rfl
  · intro r hok
    obtain ⟨ci', hval, hcol⟩ := NewIndexer_ok_inv ci bi r hok
    exact initCollection_ok_inv ci' bi hcol
  · intro ci' v cli hval hcli hvec hdim hmiss
    have hensure :
        ensureCollectionStep ci' bi false =
          .error "[NewIndexer] vector dimension is required when collection does not exist" := by
      unfold ensureCollectionStep
      simp only [Bool.not_false, if_true]
      rw [hvec]
      simp only []
      rw [if_pos hdim]
    have hinit :
        initCollection ci' bi =
          .error "[NewIndexer] vector dimension is required when collection does not exist" := by
      unfold initCollection
      rw [hmiss]
      simp only []
      rw [hensure]
    unfold NewIndexer
    rw [hval]
    simp only []
    rw [hcli]
    simp only []
    rw [hinit]
  · intro hmiss
    cases hr : NewRetriever cr br with
    | error e => exact ⟨e, rfl⟩
    | ok r =>
      exfalso
      obtain ⟨cr', hval, hload⟩ := NewRetriever_ok_inv cr br r hr
      have := (retrieverLoadCollection_ok_inv cr' br hload).1
      rw [hmiss] at this
      simp at this
  · intro r hok
    obtain ⟨cr', hval, hload⟩ := NewRetriever_ok_inv cr br r hok
    exact retrieverLoadCollection_ok_inv cr' br hload

/-- Witness for C4 at concrete configurations and backend outcomes. -/
theorem construction_flow_witness :
    indexerInitClient sampleIndexerConfig sampleIndexerBackendOk = .ok .provided ∧
    indexerInitClient sampleIndexerConfigCreate sampleIndexerBackendOk = .ok .created ∧
    (∃ e, NewIndexer sampleIndexerConfigNoClient sampleIndexerBackendOk = .error e) ∧
    retrieverInitClient sampleRetrieverConfig sampleRetrieverBackendOk = .ok .provided ∧
    retrieverInitClient sampleRetrieverConfigCreate sampleRetrieverBackendOk = .ok .created ∧
    (∃ e, NewRetriever sampleRetrieverConfigNoClient sampleRetrieverBackendOk = .error e) ∧
    ((sampleIndexerBackendOk.hasCollectionResp = .ok true ∨
        (sampleIndexerBackendOk.hasCollectionResp = .ok false ∧
          sampleIndexerBackendOk.createCollectionResp = .ok ())) ∧
      (sampleIndexerBackendOk.getLoadStateResp = .ok .loaded ∨
        (sampleIndexerBackendOk.loadCollectionResp = .ok () ∧
          sampleIndexerBackendOk.awaitLoadResp = .ok ()))) ∧
    NewIndexer sampleIndexerConfigBadDim sampleIndexerBackendMissing =
      .error "[NewIndexer] vector dimension is required when collection does not exist" ∧
    (∃ e, NewRetriever sampleRetrieverConfig sampleRetrieverBackendMissing = .error e) ∧
    (sampleRetrieverBackendOk.hasCollectionResp = .ok true ∧
      (sampleRetrieverBackendOk.getLoadStateResp = .ok .loaded ∨
        (sampleRetrieverBackendOk.loadCollectionResp = .ok () ∧
          sampleRetrieverBackendOk.awaitLoadResp = .ok ()))) :=
  ⟨(construction_flow sampleIndexerConfig sampleIndexerBackendOk sampleRetrieverConfig
      sampleRetrieverBackendOk).1 rfl,
    (construction_flow sampleIndexerConfigCreate sampleIndexerBackendOk sampleRetrieverConfig
      sampleRetrieverBackendOk).2.1 rfl rfl rfl,
    (construction_flow sampleIndexerConfigNoClient sampleIndexerBackendOk sampleRetrieverConfig
      sampleRetrieverBackendOk).2.2.1 rfl rfl,
    (construction_flow sampleIndexerConfig sampleIndexerBackendOk sampleRetrieverConfig
      sampleRetrieverBackendOk).2.2.2.1 rfl,
    (construction_flow sampleIndexerConfig sampleIndexerBackendOk sampleRetrieverConfigCreate
      sampleRetrieverBackendOk).2.2.2.2.1 rfl rfl rfl,
    (construction_flow sampleIndexerConfig sampleIndexerBackendOk sampleRetrieverConfigNoClient
      sampleRetrieverBackendOk).2.2.2.2.2.1 rfl rfl,
    (construction_flow sampleIndexerConfig sampleIndexerBackendOk sampleRetrieverConfig
      sampleRetrieverBackendOk).2.2.2.2.2.2.1
      (ClientSource.provided, sampleIndexerConfig.applyDefaults) rfl,
    (construction_flow sampleIndexerConfigBadDim sampleIndexerBackendMissing
      sampleRetrieverConfig sampleRetrieverBackendOk).2.2.2.2.2.2.2.1
      sampleIndexerConfigBadDim.applyDefaults (VectorConfig.mk 0 L2 defaultVectorField)
      ClientSource.provided rfl rfl rfl (by decide) rfl,
    (construction_flow sampleIndexerConfig sampleIndexerBackendOk sampleRetrieverConfig
      sampleRetrieverBackendMissing).2.2.2.2.2.2.2.2.1 rfl,
    (construction_flow sampleIndexerConfig sampleIndexerBackendOk sampleRetrieverConfig
      sampleRetrieverBackendOk).2.2.2.2.2.2.2.2.2
      (ClientSource.provided,
        RetrieverConfig.mk true false "eino_collection" [] "vector" "sparse_vector" ["*"] 5
          true true) rfl⟩

lemma mapSet_same (m : String → Option GoVal) (k : String) (v : GoVal) :
    mapSet m k v k = some v := by
  simp [mapSet]

lemma mapSet_other (m : String → Option GoVal) (k : String) (v : GoVal) (k' : String)
    (h : k' ≠ k) : mapSet m k v k' = m k' := by
  simp [mapSet, h]

lemma foldl_mapSet_not_mem (k : String) :
    ∀ (l : List (String × GoVal)) (m : String → Option GoVal), k ∉ l.map Prod.fst →
      l.foldl (fun acc p => mapSet acc p.1 p.2) m k = m k := by
  intro l
  induction l with
  | nil => intro m _; rfl
  | cons p rest ih =>
    intro m hk
    simp only [List.map_cons, List.mem_cons] at hk
    push_neg at hk
    rw [List.foldl_cons, ih _ hk.2, mapSet_other _ _ _ _ hk.1]

lemma foldl_mapSet_mem (k : String) (v : GoVal) :
    ∀ (l : List (String × GoVal)) (m : String → Option GoVal),
      (l.map Prod.fst).Nodup → (k, v) ∈ l →
      l.foldl (fun acc p => mapSet acc p.1 p.2) m k = some v := by
  intro l
  induction l with
  | nil =>
    intro m _ h
    cases h
  | cons p rest ih =>
    intro m hnd hmem
    rw [List.foldl_cons]
    rw [List.map_cons] at hnd
    have hnd' := List.nodup_cons.mp hnd
    rcases List.mem_cons.mp hmem with rfl | hmem'
    · rw [foldl_mapSet_not_mem k rest _ hnd'.1, mapSet_same]
    · exact ih _ hnd'.2 hmem'

/-- Full behaviour of one field-loop step on the parts of the document the
claim talks about: the score is never touched; the id (resp. content) is
only touched by the field named `"id"` (resp. the content field); a
metadata key `k` is only touched by the metadata field when its JSON holds
`k`, or by a non-special field named `k`. -/
lemma applyField_parts (gas : GoVal → Option String) (i : Nat) (doc : Document)
    (field : ResultField) :
    (applyField gas i doc field).score = doc.score ∧
    (field.name ≠ "id" → (applyField gas i doc field).id = doc.id) ∧
    (field.name ≠ defaultContentField →
      (applyField gas i doc field).content = doc.content) ∧
    (∀ k,
      (field.name = defaultMetadataField →
        ∀ mm, field.values.getD i none = some (.gbytes true mm) → k ∉ mm.map Prod.fst) →
      (field.name ≠ "id" → field.name ≠ defaultContentField →
        field.name ≠ defaultMetadataField → k ≠ field.name) →
      (applyField gas i doc field).metaData k = doc.metaData k) := by
  unfold applyField
  cases hv : field.values.getD i none with
  | none => exact ⟨rfl, fun _ => rfl, fun _ => rfl, fun k _ _ => rfl⟩
  | some val =>
    simp only []
    by_cases h1 : field.name = "id"
    · rw [if_pos h1]
      refine ⟨?_, fun h => absurd h1 h, fun _ => ?_, fun k _ _ => ?_⟩ <;>
        (cases val with
         | gstr s => rfl
         | gbytes ok m => cases gas (.gbytes ok m) <;> rfl
         | gint n => cases gas (.gint n) <;> rfl)
    · rw [if_neg h1]
      by_cases h2 : field.name = defaultContentField
      · rw [if_pos h2]
        refine ⟨?_, fun _ => ?_, fun h => absurd h2 h, fun k _ _ => ?_⟩ <;>
          (cases val with
           | gstr s => rfl
           | gbytes ok m => cases gas (.gbytes ok m) <;> rfl
           | gint n => cases gas (.gint n) <;> rfl)
      · rw [if_neg h2]
        by_cases h3 : field.name = defaultMetadataField
        · rw [if_pos h3]
          refine ⟨?_, fun _ => ?_, fun _ => ?_, fun k hmeta _ => ?_⟩ <;>
            cases val with
            | gstr s => try rfl
            | gbytes ok m =>
              cases ok with
              | false => rfl
              | true =>
                first
                | rfl
                | exact foldl_mapSet_not_mem k m doc.metaData (hmeta h3 m rfl)
            | gint n => try rfl
        · rw [if_neg h3]
          refine ⟨rfl, fun _ => rfl, fun _ => rfl, fun k _ hk => ?_⟩
          exact mapSet_other _ _ _ _ (hk h1 h2 h3)

lemma applyField_id_set (gas : GoVal → Option String) (i : Nat) (doc : Document)
    (field : ResultField) (s : String) (h1 : field.name = "id")
    (hv : field.values.getD i none = some (.gstr s)) :
    (applyField gas i doc field).id = s := by
  unfold applyField
  rw [hv]
  simp only []
  rw [if_pos h1]

lemma applyField_content_set (gas : GoVal → Option String) (i : Nat) (doc : Document)
    (field : ResultField) (s : String) (h1 : field.name = defaultContentField)
    (hv : field.values.getD i none = some (.gstr s)) :
    (applyField gas i doc field).content = s := by
  unfold applyField
  rw [hv]
  simp only []
  rw [if_neg (by rw [h1]; decide), if_pos h1]

lemma applyField_metadata_merge (gas : GoVal → Option String) (i : Nat) (doc : Document)
    (field : ResultField) (m : List (String × GoVal))
    (h1 : field.name = defaultMetadataField)
    (hv : field.values.getD i none = some (.gbytes true m)) :
    (applyField gas i doc field).metaData =
      m.foldl (fun acc p => mapSet acc p.1 p.2) doc.metaData := by
  unfold applyField
  rw [hv]
  simp only []
  rw [if_neg (by rw [h1]; decide), if_neg (by rw [h1]; decide), if_pos h1]
  simp

lemma applyField_default_set (gas : GoVal → Option String) (i : Nat) (doc : Document)
    (field : ResultField) (v : GoVal) (h1 : field.name ≠ "id")
    (h2 : field.name ≠ defaultContentField) (h3 : field.name ≠ defaultMetadataField)
    (hv : field.values.getD i none = some v) :
    (applyField gas i doc field).metaData = mapSet doc.metaData field.name v := by
  unfold applyField
  rw [hv]
  simp only []
  rw [if_neg h1, if_neg h2, if_neg h3]

lemma foldl_fields_score (gas : GoVal → Option String) (i : Nat) :
    ∀ (fields : List ResultField) (doc : Document),
      (fields.foldl (applyField gas i) doc).score = doc.score := by
  intro fields
  induction fields with
  | nil => intro doc; rfl
  | cons f rest ih =>
    intro doc
    rw [List.foldl_cons, ih, (applyField_parts gas i doc f).1]

lemma foldl_fields_id (gas : GoVal → Option String) (i : Nat) :
    ∀ (fields : List ResultField) (doc : Document), (∀ g ∈ fields, g.name ≠ "id") →
      (fields.foldl (applyField gas i) doc).id = doc.id := by
  intro fields
  induction fields with
  | nil => intro doc _; rfl
  | cons f rest ih =>
    intro doc hall
    rw [List.foldl_cons, ih _ (fun g hg => hall g (List.mem_cons_of_mem _ hg)),
      (applyField_parts gas i doc f).2.1 (hall f (List.mem_cons_self _ _))]

lemma foldl_fields_content (gas : GoVal → Option String) (i : Nat) :
    ∀ (fields : List ResultField) (doc : Document),
      (∀ g ∈ fields, g.name ≠ defaultContentField) →
      (fields.foldl (applyField gas i) doc).content = doc.content := by
  intro fields
  induction fields with
  | nil => intro doc _; rfl
  | cons f rest ih =>
    intro doc hall
    rw [List.foldl_cons, ih _ (fun g hg => hall g (List.mem_cons_of_mem _ hg)),
      (applyField_parts gas i doc f).2.2.1 (hall f (List.mem_cons_self _ _))]

lemma foldl_fields_metaData (gas : GoVal → Option String) (i : Nat) (k : String) :
    ∀ (fields : List ResultField) (doc : Document),
      (∀ g ∈ fields,
        (g.name = defaultMetadataField →
          ∀ mm, g.values.getD i none = some (.gbytes true mm) → k ∉ mm.map Prod.fst) ∧
        (g.name ≠ "id" → g.name ≠ defaultContentField → g.name ≠ defaultMetadataField →
          k ≠ g.name)) →
      (fields.foldl (applyField gas i) doc).metaData k = doc.metaData k := by
  intro fields
  induction fields with
  | nil => intro doc _; rfl
  | cons f rest ih =>
    intro doc hall
    rw [List.foldl_cons, ih _ (fun g hg => hall g (List.mem_cons_of_mem _ hg)),
      (applyField_parts gas i doc f).2.2.2 k (hall f (List.mem_cons_self _ _)).1
        (hall f (List.mem_cons_self _ _)).2]

lemma range_map_getD (f : Nat → Document) (n i : Nat) (hi : i < n) (d0 : Document) :
    ((List.range n).map f).getD i d0 = f i := by
  rw [List.getD_eq_getElem _ _ (by simpa using hi)]
  simp

lemma fields_split (fields : List ResultField) (f : ResultField)
    (hmem : f ∈ fields) (hnd : (fields.map ResultField.name).Nodup) :
    ∃ l1 l2, fields = l1 ++ f :: l2 ∧
      (∀ g ∈ l1, g.name ≠ f.name) ∧ (∀ g ∈ l2, g.name ≠ f.name) := by
  obtain ⟨l1, l2, rfl⟩ := List.append_of_mem hmem
  rw [List.map_append, List.map_cons] at hnd
  have h := List.nodup_append.mp hnd
  refine ⟨l1, l2, rfl, ?_, ?_⟩
  · intro g hg heq
    exact h.2.2 (List.mem_map_of_mem _ hg) (heq ▸ List.mem_cons_self _ _)
  · intro g hg heq
    exact (List.nodup_cons.mp h.2.1).1 (heq ▸ List.mem_map_of_mem _ hg)

/-- C8: the retriever's default `DocumentConverter` returns exactly
`ResultCount` documents in result order; document `i` carries score
`float64(Scores[i])` whenever `i < len(Scores)`; the `"id"` field populates
`Document.ID`, the content field populates `Document.Content`, the metadata
JSON field is unmarshaled and merged into `Document.MetaData`, and every
other output field is stored in `MetaData` under its field name (the
interference hypotheses rule out two writes to the same metadata key). -/
theorem retriever_document_conversion (f64 : ℚ → ℚ) (gas : GoVal → Option String)
    (rs : ResultSet) (hnd : (rs.fields.map ResultField.name).Nodup) :
    ∃ docs, retrieverDocumentConverter f64 gas rs = .ok docs ∧
      docs.length = rs.resultCount.toNat ∧
      ∀ i d0, i < rs.resultCount.toNat →
        ((docs.getD i d0).score =
          (if i < rs.scores.length then some (f64 (rs.scores.getD i 0)) else none)) ∧
        (∀ f s, f ∈ rs.fields → f.name = "id" →
          f.values.getD i none = some (.gstr s) → (docs.getD i d0).id = s) ∧
        (∀ f s, f ∈ rs.fields → f.name = defaultContentField →
          f.values.getD i none = some (.gstr s) → (docs.getD i d0).content = s) ∧
        (∀ f m, f ∈ rs.fields → f.name = defaultMetadataField →
          f.values.getD i none = some (.gbytes true m) → (m.map Prod.fst).Nodup →
          (∀ k' ∈ m.map Prod.fst, ∀ g ∈ rs.fields,
            g.name = "id" ∨ g.name = defaultContentField ∨
              g.name = defaultMetadataField ∨ k' ≠ g.name) →
          ∀ k v, (k, v) ∈ m → (docs.getD i d0).metaData k = some v) ∧
        (∀ f v, f ∈ rs.fields → f.name ≠ "id" → f.name ≠ defaultContentField →
          f.name ≠ defaultMetadataField → f.values.getD i none = some v →
          (∀ g mm, g ∈ rs.fields → g.name = defaultMetadataField →
            g.values.getD i none = some (.gbytes true mm) → f.name ∉ mm.map Prod.fst) →
          (docs.getD i d0).metaData f.name = some v) := by
  refine ⟨(List.range rs.resultCount.toNat).map (convertRow f64 gas rs), rfl,
    by simp, ?_⟩
  intro i d0 hi
  rw [range_map_getD _ _ _ hi]
  unfold convertRow
  refine ⟨?_, ?_, ?_, ?_, ?_⟩
  · rw [foldl_fields_score]
  · intro f s hmem hf1 hv
    obtain ⟨l1, l2, heq, hl1, hl2⟩ := fields_split rs.fields f hmem hnd
    rw [heq, List.foldl_append, List.foldl_cons,
      foldl_fields_id gas i l2 _ (fun g hg => (hf1 ▸ hl2 g hg)),
      applyField_id_set gas i _ f s hf1 hv]
  · intro f s hmem hf1 hv
    obtain ⟨l1, l2, heq, hl1, hl2⟩ := fields_split rs.fields f hmem hnd
    rw [heq, List.foldl_append, List.foldl_cons,
      foldl_fields_content gas i l2 _ (fun g hg => (hf1 ▸ hl2 g hg)),
      applyField_content_set gas i _ f s hf1 hv]
  · intro f m hmem hf1 hv hmnd hdisj k v hkv
    obtain ⟨l1, l2, heq, hl1, hl2⟩ := fields_split rs.fields f hmem hnd
    have hkmem : k ∈ m.map Prod.fst := List.mem_map_of_mem _ hkv
    rw [heq, List.foldl_append, List.foldl_cons,
      foldl_fields_metaData gas i k l2 _ ?cond,
      applyField_metadata_merge gas i _ f m hf1 hv,
      foldl_mapSet_mem k v m _ hmnd hkv]
    case cond =>
      intro g hg
      have hgmem : g ∈ rs.fields := by
        rw [heq]
        exact List.mem_append_right _ (List.mem_cons_of_mem _ hg)
      constructor
      · intro hgname
        exact absurd (hgname.trans hf1.symm) (hl2 g hg)
      · intro hg1 hg2 hg3
        rcases hdisj k hkmem g hgmem with h' | h' | h' | h'
        · exact absurd h' hg1
        · exact absurd h' hg2
        · exact absurd h' hg3
        · exact h'
  · intro f v hmem hf1 hf2 hf3 hv hno
    obtain ⟨l1, l2, heq, hl1, hl2⟩ := fields_split rs.fields f hmem hnd
    rw [heq, List.foldl_append, List.foldl_cons,
      foldl_fields_metaData gas i f.name l2 _ ?cond2,
      applyField_default_set gas i _ f v hf1 hf2 hf3 hv, mapSet_same]
    case cond2 =>
      intro g hg
      have hgmem : g ∈ rs.fields := by
        rw [heq]
        exact List.mem_append_right _ (List.mem_cons_of_mem _ hg)
      constructor
      · intro hgname mm hgv
        exact hno g mm hgmem hgname hgv
      · intro _ _ _
        exact fun h' => hl2 g hg h'.symm

/-- Witness for C8 at a concrete result set with id, content, metadata and
one extra field. -/
theorem retriever_document_conversion_witness :
    ∃ docs, retrieverDocumentConverter id (fun _ => none) sampleResultSet = .ok docs ∧
      docs.length = sampleResultSet.resultCount.toNat ∧
      ∀ i d0, i < sampleResultSet.resultCount.toNat →
        ((docs.getD i d0).score =
          (if i < sampleResultSet.scores.length then
            some (id (sampleResultSet.scores.getD i 0)) else none)) ∧
        (∀ f s, f ∈ sampleResultSet.fields → f.name = "id" →
          f.values.getD i none = some (.gstr s) → (docs.getD i d0).id = s) ∧
        (∀ f s, f ∈ sampleResultSet.fields → f.name = defaultContentField →
          f.values.getD i none = some (.gstr s) → (docs.getD i d0).content = s) ∧
        (∀ f m, f ∈ sampleResultSet.fields → f.name = defaultMetadataField →
          f.values.getD i none = some (.gbytes true m) → (m.map Prod.fst).Nodup →
          (∀ k' ∈ m.map Prod.fst, ∀ g ∈ sampleResultSet.fields,
            g.name = "id" ∨ g.name = defaultContentField ∨
              g.name = defaultMetadataField ∨ k' ≠ g.name) →
          ∀ k v, (k, v) ∈ m → (docs.getD i d0).metaData k = some v) ∧
        (∀ f v, f ∈ sampleResultSet.fields → f.name ≠ "id" →
          f.name ≠ defaultContentField → f.name ≠ defaultMetadataField →
          f.values.getD i none = some v →
          (∀ g mm, g ∈ sampleResultSet.fields → g.name = defaultMetadataField →
            g.values.getD i none = some (.gbytes true mm) → f.name ∉ mm.map Prod.fst) →
          (docs.getD i d0).metaData f.name = some v) :=
  retriever_document_conversion id (fun _ => none) sampleResultSet (by decide)

/-- C10, evaluated at the failing input: with no per-call TopK option the
mode-level `Hybrid.TopK = 7` never reaches the backend — the hybrid limit
is the config's 50, because every mode seeds the common options with
`TopK: &conf.TopK`, so the `co.TopK != nil` branch always overwrites the
hybrid-specific value.  A per-call TopK does override every mode, the
other modes use the config TopK as their fallback, and
`RetrieverConfig.validate` defaults a non-positive TopK to 5. -/
theorem topk_precedence_failing_input :
    (∃ opt, hybridBuildHybridSearchOption sampleHybridMode7 sampleConf50 [1] "q" none
        noImplOpts = .ok opt ∧ opt.limit = 50 ∧ opt.limit ≠ 7) ∧
    (∃ opt, hybridBuildHybridSearchOption sampleHybridMode7 sampleConf50 [1] "q" (some 9)
        noImplOpts = .ok opt ∧ opt.limit = 9) ∧
    (∃ opt, scalarBuildQueryOption sampleConf50 "q" none noImplOpts = .ok opt ∧
      opt.limit = 50) ∧
    (∃ opt, scalarBuildQueryOption sampleConf50 "q" (some 9) noImplOpts = .ok opt ∧
      opt.limit = 9) ∧
    (∃ opt, iteratorBuildSearchIteratorOption sampleIteratorMode sampleConf50 [1] none
        noImplOpts = .ok opt ∧ opt.iteratorLimit = 50) ∧
    (∃ opt, iteratorBuildSearchIteratorOption sampleIteratorMode sampleConf50 [1] (some 9)
        noImplOpts = .ok opt ∧ opt.iteratorLimit = 9) ∧
    (∃ opt, rangeBuildSearchOption (fun _ => "0.5") sampleRangeMode sampleConf50 [1] none
        noImplOpts = .ok opt ∧ opt.topK = 50) ∧
    (∃ opt, rangeBuildSearchOption (fun _ => "0.5") sampleRangeMode sampleConf50 [1] (some 9)
        noImplOpts = .ok opt ∧ opt.topK = 9) ∧
    (∃ c', sampleConfZeroTopK.validate = .ok c' ∧ c'.topK = 5 ∧ 0 < c'.topK) :=
  ⟨⟨_, rfl, rfl, by decide⟩, ⟨_, rfl, rfl⟩, ⟨_, rfl, rfl⟩, ⟨_, rfl, rfl⟩,
    ⟨_, rfl, rfl⟩, ⟨_, rfl, rfl⟩, ⟨_, rfl, rfl⟩, ⟨_, rfl, rfl⟩, ⟨_, rfl, rfl, by decide⟩⟩

end EinoMilvus2
